import Mathlib

/-!
Verification development for a campaign-oriented bulk mail dispatcher.

The definitions below are a shallow embedding of the repository's `app.py`:
pure helper functions (`render_email_template`, `apply_smart_delay`,
`generate_thread_index`) are translated directly; the two batch functions
(`send_bulk_emails`, `send_followup_emails`) are translated as pure state
transformers over an explicit campaign store, with the ambient
nondeterminism of the original (clock readings, UUID generation, SMTP
outcomes) supplied through environment records of streams.

The file is organised as definitions first, followed by all lemmas and
the claim theorems.
-/

namespace BulkMail

/-! ## Small string utilities -/

/-- The opening curly brace character (written numerically). -/
def lbrace : Char := Char.ofNat 123

/-- The closing curly brace character (written numerically). -/
def rbrace : Char := Char.ofNat 125

/-- Opening brace as a one-character string. -/
def lbraceStr : String := String.mk [lbrace]

/-- Closing brace as a one-character string. -/
def rbraceStr : String := String.mk [rbrace]

/-- Single-quote character as a one-character string. -/
def squoteStr : String := String.mk [Char.ofNat 39]

/-- The whitespace characters stripped by Python `str.strip()`
(space, tab, newline, carriage return, vertical tab, form feed). -/
def isPySpace (c : Char) : Bool :=
  c == ' ' || c == Char.ofNat 9 || c == Char.ofNat 10 ||
  c == Char.ofNat 13 || c == Char.ofNat 11 || c == Char.ofNat 12

/-- Model of Python `str.strip()`: drop leading and trailing whitespace. -/
def pystrip (s : String) : String :=
  String.mk (((s.data.dropWhile isPySpace).reverse.dropWhile isPySpace).reverse)

/-- Association-list lookup, modelling Python `dict` access `d[k]` / `d.get(k)`. -/
def assocLookup {α : Type} (l : List (String × α)) (k : String) : Option α :=
  (l.find? (fun p => p.1 == k)).map (fun p => p.2)

/-- Association-list update, modelling Python `dict` assignment `d[k] = v`:
overwrite in place when the key exists, append otherwise (insertion
order).  Python dictionaries never hold duplicate keys, so replacing the
first occurrence is faithful. -/
def assocSet {α : Type} : List (String × α) → String → α → List (String × α)
  | [], k, v => [(k, v)]
  | p :: rest, k, v => if p.1 == k then (k, v) :: rest else p :: assocSet rest k v

/-- Apply `f` to successive elements together with their running index. -/
def mapIdx {α β : Type} (f : Nat → α → β) : Nat → List α → List β
  | _, [] => []
  | i, a :: rest => f i a :: mapIdx f (i + 1) rest

/-! ## Template renderer (`render_email_template`, app.py lines 99-105)

The original calls Python `template.format(**context)`.  We embed the flat
key-substitution fragment of the format mini-language that the program's
templates use (the spec restricts the renderer to single-pass flat key
lookup): literal text, `{key}` placeholders, and doubled-brace escapes.
Missing keys raise a `KeyError`-like failure carrying the key; malformed
brace syntax raises a generic failure, mirroring the two `except` arms. -/

/-- One parsed segment of a format template: a literal character or a
placeholder field naming a context key. -/
inductive Seg where
  | lit (c : Char)
  | ph (key : String)
deriving DecidableEq, Repr

/-- Failures of the embedded `str.format`: a missing key (Python
`KeyError`) or any other formatting failure (Python `ValueError` etc.). -/
inductive FmtErr where
  | keyError (key : String)
  | valueError (msg : String)
deriving DecidableEq, Repr

/-- Scanner modes for the format string: literal text, just after an
opening brace, just after a closing brace, or inside a field (with the
reversed field-name characters read so far). -/
inductive PMode where
  | text
  | afterOpen
  | afterClose
  | field (acc : List Char)

/-- State-machine scanner for the format string. -/
def parseTplAux : List Char → PMode → Except FmtErr (List Seg)
  | [], .text => .ok []
  | [], .afterOpen => .error (.valueError "Single brace encountered in format string")
  | [], .afterClose => .error (.valueError "Single brace encountered in format string")
  | [], .field _ => .error (.valueError "expected closing brace before end of string")
  | c :: rest, .text =>
    if c = lbrace then parseTplAux rest .afterOpen
    else if c = rbrace then parseTplAux rest .afterClose
    else (parseTplAux rest .text).map (fun segs => .lit c :: segs)
  | c :: rest, .afterOpen =>
    if c = lbrace then (parseTplAux rest .text).map (fun segs => .lit lbrace :: segs)
    else if c = rbrace then (parseTplAux rest .text).map (fun segs => .ph "" :: segs)
    else parseTplAux rest (.field [c])
  | c :: rest, .afterClose =>
    if c = rbrace then (parseTplAux rest .text).map (fun segs => .lit rbrace :: segs)
    else .error (.valueError "Single brace encountered in format string")
  | c :: rest, .field acc =>
    if c = rbrace then
      (parseTplAux rest .text).map (fun segs => .ph (String.mk acc.reverse) :: segs)
    else if c = lbrace then .error (.valueError "unexpected brace in field name")
    else parseTplAux rest (.field (c :: acc))

/-- Parse a template into segments. -/
def parseTpl (t : List Char) : Except FmtErr (List Seg) := parseTplAux t .text

/-- A rendering context: the keyword arguments passed to `format`. -/
abbrev Ctx := List (String × String)

/-- Context lookup (keyword-argument lookup of `format`). -/
def lookupCtx (ctx : Ctx) (k : String) : Option String := assocLookup ctx k

/-- Substitute a parsed template left to right; the first placeholder whose
key is absent from the context raises its `KeyError`. -/
def substSegs (ctx : Ctx) : List Seg → Except FmtErr (List Char)
  | [] => .ok []
  | .lit c :: rest => (substSegs ctx rest).map (fun s => c :: s)
  | .ph k :: rest =>
    match lookupCtx ctx k with
    | some v => (substSegs ctx rest).map (fun s => v.toList ++ s)
    | none => .error (.keyError k)

/-- The embedded `template.format(**context)`. -/
def pyFormat (template : List Char) (ctx : Ctx) : Except FmtErr (List Char) :=
  match parseTpl template with
  | .error e => .error e
  | .ok segs => substSegs ctx segs

/-- `render_email_template` (app.py lines 99-105): returns the rendered
string and an empty error on success, or an empty string and a
human-readable error.  A `KeyError` is reported as
`Template error: missing placeholder {key}`; any other failure as
`Template rendering error: ...`. -/
def render_email_template (template : String) (context : Ctx) : String × String :=
  match pyFormat template.toList context with
  | .ok out => (String.mk out, "")
  | .error (.keyError k) =>
    ("", "Template error: missing placeholder " ++ lbraceStr ++ k ++ rbraceStr)
  | .error (.valueError m) => ("", "Template rendering error: " ++ m)

/-- The placeholder keys of a parsed template, in order of appearance. -/
def segKeys : List Seg → List String
  | [] => []
  | .lit _ :: rest => segKeys rest
  | .ph k :: rest => k :: segKeys rest

/-- Total substitution function: replaces every placeholder by its context
value (defaulting to the empty string); used to state what a successful
render returns. -/
def fillSegs (ctx : Ctx) : List Seg → List Char
  | [] => []
  | .lit c :: rest => c :: fillSegs ctx rest
  | .ph k :: rest => ((lookupCtx ctx k).getD "").toList ++ fillSegs ctx rest

/-- The first placeholder key (in template order) absent from the context. -/
def firstMissing (ctx : Ctx) (segs : List Seg) : Option String :=
  (segKeys segs).find? (fun k => (lookupCtx ctx k).isNone)

/-- A segment neither is a literal brace (escaped in the template) nor
substitutes a value containing a brace. -/
def braceFreeSeg (ctx : Ctx) : Seg → Prop
  | .lit c => c ≠ lbrace ∧ c ≠ rbrace
  | .ph k => ∀ c ∈ ((lookupCtx ctx k).getD "").toList, c ≠ lbrace ∧ c ≠ rbrace

/-- What a successful render returns: the fully substituted string and an
empty error, with no placeholder syntax remaining whenever the template
has no escaped braces and the substituted values are brace-free. -/
def renderOk (t : String) (ctx : Ctx) (segs : List Seg) : Prop :=
  render_email_template t ctx = (String.mk (fillSegs ctx segs), "") ∧
  ((∀ s ∈ segs, braceFreeSeg ctx s) →
    ∀ c ∈ fillSegs ctx segs, c ≠ lbrace ∧ c ≠ rbrace)

/-- What a render with a missing key returns: an empty string and an
error naming exactly the first missing key. -/
def renderMissing (t : String) (ctx : Ctx) (segs : List Seg) : Prop :=
  ∀ k, firstMissing ctx segs = some k →
    render_email_template t ctx =
      ("", "Template error: missing placeholder " ++ lbraceStr ++ k ++ rbraceStr) ∧
    k ∈ segKeys segs ∧ lookupCtx ctx k = none

/-! ## Dispatch throttle (`apply_smart_delay`, app.py lines 136-143) -/

/-- `apply_smart_delay`: the pause (in seconds) slept after a send, as a
function of the cumulative successful-send count. -/
def apply_smart_delay (sent_count : Nat) : ℚ :=
  if 0 < sent_count then
    if sent_count % 100 = 0 then 8
    else if sent_count % 50 = 0 then 5
    else if sent_count % 10 = 0 then 2.5
    else 0
  else 0

/-! ## Base64 and the Thread-Index generator
(`generate_thread_index`, app.py lines 151-188) -/

/-- The standard base64 alphabet. -/
def b64chars : List Char :=
  "ABCDEFGHIJKLMNOPQRSTUVWXYZabcdefghijklmnopqrstuvwxyz0123456789+/".toList

/-- The base64 character for a 6-bit value. -/
def b64char (n : Nat) : Char := b64chars.getD n 'A'

/-- The 6-bit value of a base64 character, or `none` for characters
outside the alphabet. -/
def b64index (c : Char) : Option Nat :=
  (List.range 64).find? (fun n => b64char n = c)

/-- Base64 encoding of a byte list (with `=` padding). -/
def b64encode : List Nat → List Char
  | [] => []
  | [a] => [b64char (a / 4), b64char (a % 4 * 16), '=', '=']
  | [a, b] => [b64char (a / 4), b64char (a % 4 * 16 + b / 16), b64char (b % 16 * 4), '=']
  | a :: b :: c :: rest =>
    b64char (a / 4) :: b64char (a % 4 * 16 + b / 16) ::
    b64char (b % 16 * 4 + c / 64) :: b64char (c % 64) :: b64encode rest

/-- Base64 decoding of a (canonically padded) character list to a byte
list; `none` on any malformed input, modelling the decode failure the
source catches. -/
def b64decode : List Char → Option (List Nat)
  | [] => some []
  | c1 :: c2 :: c3 :: c4 :: rest =>
    match b64index c1, b64index c2 with
    | some x1, some x2 =>
      if c3 = '=' then
        if c4 = '=' ∧ rest = [] then some [x1 * 4 + x2 / 16] else none
      else
        match b64index c3 with
        | some x3 =>
          if c4 = '=' then
            if rest = [] then some [x1 * 4 + x2 / 16, x2 % 16 * 16 + x3 / 4] else none
          else
            match b64index c4 with
            | some x4 =>
              match b64decode rest with
              | some bs =>
                some ((x1 * 4 + x2 / 16) :: (x2 % 16 * 16 + x3 / 4) ::
                      (x3 % 4 * 64 + x4) :: bs)
              | none => none
            | none => none
        | none => none
    | _, _ => none
  | _ => none

/-- `struct.pack("<Q", n)`: the eight little-endian bytes of `n` (mod 2^64
is immaterial here because only the low six bytes are ever kept). -/
def pack8LE (n : Nat) : List Nat := (List.range 8).map (fun i => n / 256 ^ i % 256)

/-- The padding step of the reply branch: extend to a multiple of four
characters with `=` (`parent_index += "=" * (4 - pad)`). -/
def padB64 (p : List Char) : List Char :=
  p ++ List.replicate ((4 - p.length % 4) % 4) '='

/-- The ambient inputs of one `generate_thread_index` call: the Windows
FILETIME value `int(time.time() * 10_000_000) + 116_444_736_000_000_000`
and the sixteen bytes of the freshly generated `uuid.uuid4()`. -/
structure ThreadEnv where
  filetime : Nat
  guid : List Nat

/-- `generate_thread_index` (app.py lines 151-188): with no parent, encode
six little-endian FILETIME bytes followed by the sixteen GUID bytes; with
a parent, pad and decode it, append five little-endian FILETIME bytes and
re-encode, falling back to a fresh initial-style index if the parent does
not decode. -/
def generate_thread_index (env : ThreadEnv) (parent_index : Option (List Char)) :
    List Char :=
  match parent_index with
  | none => b64encode ((pack8LE env.filetime).take 6 ++ env.guid)
  | some p =>
    match b64decode (padB64 p) with
    | some parent_bytes =>
      b64encode (parent_bytes ++ (pack8LE env.filetime).take 5)
    | none => b64encode ((pack8LE env.filetime).take 6 ++ env.guid)

/-! ## Campaign store data model (app.py lines 328-334 and 351-359)

Timestamps are modelled as integers in microseconds (the resolution of
`datetime`); `timedelta(days=d)` is `d * usPerDay`. -/

/-- Microseconds per day: the value of `timedelta(days=1)`. -/
def usPerDay : Int := 86400000000

/-- One recipient record of a campaign
(`campaign_db.json` recipient object, app.py lines 328-334). -/
structure Recipient where
  name : String
  message_id : String
  subject : String
  thread_index : String
  followups_sent : Nat
  last_sent_date : Int
  next_followup_date : Int
deriving DecidableEq, Repr

/-- One campaign record (app.py lines 351-359). -/
structure Campaign where
  created_at : Int
  sender_email : String
  subject_template : String
  body_template : String
  total_followups_planned : Nat
  followup_interval_days : Int
  recipients : List (String × Recipient)
deriving DecidableEq, Repr

/-- The campaign store: `campaign_db.json` as a mapping from campaign
name to campaign record. -/
abbrev DB := List (String × Campaign)

/-- One row of the per-recipient results list returned by a batch. -/
structure ResultRow where
  name : String
  email : String
  status : String
  message : String
  followup_num : Option Nat
deriving DecidableEq, Repr

/-- One `server.sendmail` invocation: the transmitted message's
recipient, subject, body and threading headers, plus whether the
submission succeeded. -/
structure SentMsg where
  to_addr : String
  subject : String
  body : String
  msg_id : String
  in_reply_to : Option String
  thread_index : String
  ok : Bool
deriving DecidableEq, Repr

/-- The observable outcome of one batch call: the exception raised (if
any), the returned `(sent_count, failed_count, results)`, the campaign
store after the call, and the trace of `sendmail` invocations. -/
structure BatchResult where
  err : Option String
  sent : Nat
  failed : Nat
  results : List ResultRow
  db : DB
  sends : List SentMsg
deriving DecidableEq, Repr

/-- The caller-side update of `total_emails_sent.json` (app.py lines
902-903, 1018-1019, 1116-1117): the counter is bumped only when the batch
reported at least one send. -/
def updated_total (prev sent : Nat) : Nat := if 0 < sent then prev + sent else prev

/-! ## Initial launch (`send_bulk_emails`, app.py lines 270-361) -/

/-- Ambient nondeterminism of one launch batch, as per-iteration streams:
whether `server.login` succeeds (and the error text when not), whether the
`sendmail` of iteration `i` succeeds (and its error text), the message id
and Thread-Index generated in iteration `i`, the two `datetime.now()`
readings of the success branch of iteration `i` (lines 332 and 333), and
the `datetime.now()` reading of the final record (line 352). -/
structure LaunchEnv where
  authOk : Bool
  authErr : String
  sendOk : Nat → Bool
  sendErr : Nat → String
  msgid : Nat → String
  tidx : Nat → String
  now1 : Nat → Int
  now2 : Nat → Int
  created_at : Int

/-- `str(row.get("Name", "")).strip()` (app.py line 298). -/
def rowName (row : Ctx) : String := pystrip ((assocLookup row "Name").getD "")

/-- `str(row.get("Email", "")).strip()` (app.py line 299). -/
def rowEmail (row : Ctx) : String := pystrip ((assocLookup row "Email").getD "")

/-- The rendering context of one row (app.py lines 300-302): all columns
of the row, with `Name` and `Email` added only when absent. -/
def buildContext (row : Ctx) : Ctx :=
  row ++
  (if (assocLookup row "Name").isSome then [] else [("Name", rowName row)]) ++
  (if (assocLookup row "Email").isSome then [] else [("Email", rowEmail row)])

/-- The result row recorded for iteration `i` of a launch batch
(app.py lines 304-340). -/
def launchRow (env : LaunchEnv) (st bt : String) (i : Nat) (row : Ctx) : ResultRow :=
  let ctx := buildContext row
  let subjR := render_email_template st ctx
  if subjR.2 ≠ "" then ⟨rowName row, rowEmail row, "Failed", subjR.2, none⟩
  else
    let bodyR := render_email_template bt ctx
    if bodyR.2 ≠ "" then ⟨rowName row, rowEmail row, "Failed", bodyR.2, none⟩
    else if env.sendOk i then
      ⟨rowName row, rowEmail row, "Sent", "Initial email sent.", none⟩
    else
      ⟨rowName row, rowEmail row, "Failed", "SMTP error: " ++ env.sendErr i, none⟩

/-- The dispatch loop of `send_bulk_emails` (app.py lines 297-344),
threading the `campaign_recipients` dict as an accumulator.  Returns
`(sent_count, failed_count, results, campaign_recipients, sendmail trace)`. -/
def launchLoop (env : LaunchEnv) (st bt : String) :
    Nat → List Ctx → List (String × Recipient) →
    Nat × Nat × List ResultRow × List (String × Recipient) × List SentMsg
  | _, [], acc => (0, 0, [], acc, [])
  | i, row :: rest, acc =>
    let ctx := buildContext row
    let name := rowName row
    let email := rowEmail row
    let subjR := render_email_template st ctx
    if subjR.2 ≠ "" then
      let r := launchLoop env st bt (i + 1) rest acc
      (r.1, r.2.1 + 1, ⟨name, email, "Failed", subjR.2, none⟩ :: r.2.2.1,
       r.2.2.2.1, r.2.2.2.2)
    else
      let bodyR := render_email_template bt ctx
      if bodyR.2 ≠ "" then
        let r := launchLoop env st bt (i + 1) rest acc
        (r.1, r.2.1 + 1, ⟨name, email, "Failed", bodyR.2, none⟩ :: r.2.2.1,
         r.2.2.2.1, r.2.2.2.2)
      else
        let msg : SentMsg :=
          ⟨email, subjR.1, bodyR.1, env.msgid i, none, env.tidx i, env.sendOk i⟩
        if env.sendOk i then
          let newRec : Recipient :=
            ⟨name, env.msgid i, subjR.1, env.tidx i, 0,
             env.now1 i, env.now2 i + 3 * usPerDay⟩
          let r := launchLoop env st bt (i + 1) rest (assocSet acc email newRec)
          (r.1 + 1, r.2.1, ⟨name, email, "Sent", "Initial email sent.", none⟩ :: r.2.2.1,
           r.2.2.2.1, msg :: r.2.2.2.2)
        else
          let r := launchLoop env st bt (i + 1) rest acc
          (r.1, r.2.1 + 1,
           ⟨name, email, "Failed", "SMTP error: " ++ env.sendErr i, none⟩ :: r.2.2.1,
           r.2.2.2.1, msg :: r.2.2.2.2)

/-- `send_bulk_emails` (app.py lines 270-361): empty input returns
immediately; an existing campaign name is rejected before any connection;
a failed login raises; otherwise every row is processed, successful sends
are recorded into a fresh recipient map, and the new campaign record is
stored under the campaign name. -/
def send_bulk_emails (env : LaunchEnv) (df : List Ctx)
    (campaign_name email_address st bt : String) (db : DB) : BatchResult :=
  if df.length = 0 then ⟨none, 0, 0, [], db, []⟩
  else if (assocLookup db campaign_name).isSome then ⟨none, 0, 0, [], db, []⟩
  else if ¬ env.authOk then
    ⟨some ("SMTP authentication failed: " ++ env.authErr), 0, 0, [], db, []⟩
  else
    let r := launchLoop env st bt 0 df []
    let camp : Campaign :=
      ⟨env.created_at, email_address, st, bt, 5, 3, r.2.2.2.1⟩
    ⟨none, r.1, r.2.1, r.2.2.1, assocSet db campaign_name camp, r.2.2.2.2⟩

/-! ## Follow-up batch (`send_followup_emails`, app.py lines 364-461) -/

/-- Ambient nondeterminism of one follow-up batch.  `now` is the single
`datetime.now()` reading taken at the start (line 381) and used both for
due-filtering and for the recorded timestamps. -/
structure FollowEnv where
  authOk : Bool
  authErr : String
  sendOk : Nat → Bool
  sendErr : Nat → String
  msgid : Nat → String
  tidx : Nat → String
  now : Int

/-- The due-recipient filter (app.py lines 383-387). -/
def dueFilter (maxFollowups : Nat) (force_send_now : Bool) (now : Int)
    (recipients : List (String × Recipient)) : List (String × Recipient) :=
  recipients.filter (fun p =>
    decide (p.2.followups_sent < maxFollowups) &&
    (force_send_now || decide (p.2.next_followup_date ≤ now)))

/-- The rendering context of one due recipient of a follow-up batch
(app.py line 411). -/
def followCtx (p : String × Recipient) : Ctx :=
  [("Name", p.2.name), ("Email", p.1),
   ("followup_num", toString (p.2.followups_sent + 1))]

/-- The result row recorded for iteration `i` of a follow-up batch
(app.py lines 405-447).  Note that only a body-template failure marks the
recipient failed; a subject-template failure merely falls back. -/
def followRow (env : FollowEnv) (fbt : String) (i : Nat)
    (p : String × Recipient) : ResultRow :=
  let followup_num := p.2.followups_sent + 1
  let bodyR := render_email_template fbt (followCtx p)
  if bodyR.2 ≠ "" then ⟨p.2.name, p.1, "Failed", bodyR.2, some followup_num⟩
  else if env.sendOk i then
    ⟨p.2.name, p.1, "Sent", "Follow-up #" ++ toString followup_num ++ " sent.",
     some followup_num⟩
  else
    ⟨p.2.name, p.1, "Failed", "SMTP error: " ++ env.sendErr i, some followup_num⟩

/-- The dispatch loop of `send_followup_emails` (app.py lines 404-452),
threading the campaign's recipient map (mutated in place by the original)
through the iterations over the due list. -/
def followLoop (env : FollowEnv) (fst fbt : String) (interval : Int) :
    Nat → List (String × Recipient) → List (String × Recipient) →
    Nat × Nat × List ResultRow × List (String × Recipient) × List SentMsg
  | _, [], recips => (0, 0, [], recips, [])
  | i, p :: rest, recips =>
    let email := p.1
    let data := p.2
    let followup_num := data.followups_sent + 1
    let subjR := render_email_template fst (followCtx p)
    -- `subject` (lines 412-414) is computed but never used for the
    -- transmitted message: line 426 re-derives `f"Re: {original_subject}"`.
    let _subject := if subjR.2 ≠ "" then "Re: " ++ data.subject else subjR.1
    let bodyR := render_email_template fbt (followCtx p)
    if bodyR.2 ≠ "" then
      let r := followLoop env fst fbt interval (i + 1) rest recips
      (r.1, r.2.1 + 1,
       ⟨data.name, email, "Failed", bodyR.2, some followup_num⟩ :: r.2.2.1,
       r.2.2.2.1, r.2.2.2.2)
    else
      let msg : SentMsg :=
        ⟨email, "Re: " ++ data.subject, bodyR.1, env.msgid i,
         some data.message_id, env.tidx i, env.sendOk i⟩
      if env.sendOk i then
        let newRec : Recipient :=
          ⟨data.name, env.msgid i, data.subject, env.tidx i, followup_num,
           env.now, env.now + interval * usPerDay⟩
        let r := followLoop env fst fbt interval (i + 1) rest (assocSet recips email newRec)
        (r.1 + 1, r.2.1,
         ⟨data.name, email, "Sent", "Follow-up #" ++ toString followup_num ++ " sent.",
          some followup_num⟩ :: r.2.2.1,
         r.2.2.2.1, msg :: r.2.2.2.2)
      else
        let r := followLoop env fst fbt interval (i + 1) rest recips
        (r.1, r.2.1 + 1,
         ⟨data.name, email, "Failed", "SMTP error: " ++ env.sendErr i,
          some followup_num⟩ :: r.2.2.1,
         r.2.2.2.1, msg :: r.2.2.2.2)

/-- `send_followup_emails` (app.py lines 364-461): unknown campaign name
raises; an empty due set returns without connecting; a failed login
raises; otherwise each due recipient is processed and the (possibly
updated) recipient map is stored back into the campaign record. -/
def send_followup_emails (env : FollowEnv) (campaign_name email_address fst fbt : String)
    (force_send_now : Bool) (db : DB) : BatchResult :=
  match assocLookup db campaign_name with
  | none =>
    ⟨some ("Campaign " ++ squoteStr ++ campaign_name ++ squoteStr ++ " not found!"),
     0, 0, [], db, []⟩
  | some campaign =>
    let recipients := campaign.recipients
    let maxF := campaign.total_followups_planned
    let interval := campaign.followup_interval_days
    let due := dueFilter maxF force_send_now env.now recipients
    if due.length = 0 then ⟨none, 0, 0, [], db, []⟩
    else if ¬ env.authOk then
      ⟨some ("SMTP authentication failed: " ++ env.authErr), 0, 0, [], db, []⟩
    else
      let r := followLoop env fst fbt interval 0 due recipients
      ⟨none, r.1, r.2.1, r.2.2.1,
       assocSet db campaign_name { campaign with recipients := r.2.2.2.1 },
       r.2.2.2.2⟩

/-! ## Statement-level predicates used by the claim theorems -/

/-- The relation between a recipient record before and after a successful
follow-up send (app.py lines 438-442). -/
def updRel (env : FollowEnv) (interval : Int) (d d' : Recipient) : Prop :=
  d'.followups_sent = d.followups_sent + 1 ∧
  d'.last_sent_date = env.now ∧
  d'.next_followup_date = env.now + interval * usPerDay ∧
  d'.subject = d.subject ∧
  d'.name = d.name

/-- Post-condition of a completed launch batch: the campaign is stored,
every row produced exactly one result with status `Sent` or `Failed`, the
returned counts match those statuses, and the stored recipient map holds
exactly the successfully submitted recipients, each with zero follow-ups
sent. -/
def launchPost (df : List Ctx) (campaign_name : String) (out : BatchResult) : Prop :=
  out.err = none ∧
  ∃ c, assocLookup out.db campaign_name = some c ∧
    out.results.length = df.length ∧
    (∀ r ∈ out.results, r.status = "Sent" ∨ r.status = "Failed") ∧
    out.sent = (out.results.filter (fun r => r.status == "Sent")).length ∧
    out.failed = (out.results.filter (fun r => r.status == "Failed")).length ∧
    (∀ e, (assocLookup c.recipients e).isSome ↔
      ∃ r ∈ out.results, r.email = e ∧ r.status = "Sent") ∧
    (∀ e rec, assocLookup c.recipients e = some rec → rec.followups_sent = 0)

/-- Post-condition of a follow-up batch regarding due-set classification:
terminal recipients (planned count reached) are excluded and untouched
regardless of their timestamp and of force mode; a non-terminal recipient
is processed exactly when forced or due by timestamp. -/
def duePost (env : FollowEnv) (campaign_name : String) (force : Bool)
    (c : Campaign) (out : BatchResult) : Prop :=
  ∀ e d, assocLookup c.recipients e = some d →
    (c.total_followups_planned ≤ d.followups_sent →
      (∀ r ∈ out.results, r.email ≠ e) ∧
      ∃ c2, assocLookup out.db campaign_name = some c2 ∧
        assocLookup c2.recipients e = some d) ∧
    (d.followups_sent < c.total_followups_planned →
      ((∃ r ∈ out.results, r.email = e) ↔
        (force = true ∨ d.next_followup_date ≤ env.now)))

/-! ## Concrete instances used by witnesses and counterexamples -/

/-- A concrete launch environment: login succeeds, only iteration 0's
`sendmail` succeeds, and the two clock readings of each success branch
are 100 and 101 microseconds. -/
def envL1 : LaunchEnv :=
  ⟨true, "x", fun i => i == 0, fun _ => "boom", fun i => "m" ++ toString i,
   fun i => "T" ++ toString i, fun _ => 100, fun _ => 101, 7⟩

/-- A concrete two-recipient input table. -/
def dfW : List Ctx :=
  [[("Name", "Alice"), ("Email", "a@x.com")], [("Name", "Bob"), ("Email", "b@x.com")]]

/-- The store produced by launching `dfW` under `envL1`. -/
def dbW : DB :=
  (send_bulk_emails envL1 dfW "C1" "me@x.com" "Hi {Name}" "Body {Name}" []).db

/-- A concrete follow-up environment whose clock reads 50. -/
def envF1 : FollowEnv :=
  ⟨true, "y", fun _ => true, fun _ => "e", fun i => "fm" ++ toString i,
   fun i => "fT" ++ toString i, 50⟩

/-- A concrete one-campaign store with a single recipient that is due at
any nonnegative clock. -/
def dbF : DB :=
  [("C1", ⟨7, "me@x.com", "Hi {Name}", "Body {Name}", 5, 3,
    [("a@x.com", ⟨"Alice", "m0", "Hi Alice", "T0", 0, 0, 0⟩)]⟩)]

end BulkMail

namespace BulkMail

/-! # Lemmas -/

/-! ## Association lists -/

theorem assocLookup_nil {α : Type} (k : String) :
    assocLookup ([] : List (String × α)) k = none := rfl

theorem assocLookup_cons {α : Type} (p : String × α) (l : List (String × α)) (k : String) :
    assocLookup (p :: l) k = if p.1 = k then some p.2 else assocLookup l k := by
  by_cases h : p.1 = k
  · simp [assocLookup, List.find?_cons_of_pos, h]
  · have hb : (p.1 == k) = false := by simpa using h
    simp [assocLookup, List.find?_cons_of_neg, h, hb]

theorem assocLookup_assocSet {α : Type} (l : List (String × α)) (k k' : String) (v : α) :
    assocLookup (assocSet l k v) k' = if k' = k then some v else assocLookup l k' := by
  induction l with
  | nil =>
    by_cases h : k' = k
    · subst h; simp [assocSet, assocLookup_cons]
    · have h2 : ¬ k = k' := fun hh => h hh.symm
      simp [assocSet, assocLookup_cons, h, h2, assocLookup_nil]
  | cons p rest ih =>
    by_cases hp : p.1 = k
    · have hb : (p.1 == k) = true := by simpa using hp
      by_cases h : k' = k
      · subst h; simp [assocSet, hb, assocLookup_cons]
      · have h2 : ¬ k = k' := fun hh => h hh.symm
        have h3 : ¬ p.1 = k' := by rw [hp]; exact h2
        simp [assocSet, hb, assocLookup_cons, h, h2, h3]
    · have hb : (p.1 == k) = false := by simpa using hp
      by_cases h : k' = k
      · subst h
        simp [assocSet, hb, assocLookup_cons, hp, ih]
      · simp [assocSet, hb, assocLookup_cons, h, ih]

theorem assocSet_keys_of_mem {α : Type} (l : List (String × α)) (k : String) (v : α)
    (h : k ∈ l.map Prod.fst) :
    (assocSet l k v).map Prod.fst = l.map Prod.fst := by
  induction l with
  | nil => simp at h
  | cons p rest ih =>
    by_cases hp : p.1 = k
    · have hb : (p.1 == k) = true := by simpa using hp
      simp [assocSet, hb, hp]
    · have hb : (p.1 == k) = false := by simpa using hp
      have hk : k ∈ rest.map Prod.fst := by
        simp only [List.map_cons, List.mem_cons] at h
        exact h.resolve_left (fun hh => hp hh.symm)
      simp [assocSet, hb, ih hk]

theorem assocLookup_isSome_iff {α : Type} (l : List (String × α)) (k : String) :
    (assocLookup l k).isSome ↔ k ∈ l.map Prod.fst := by
  induction l with
  | nil => simp [assocLookup_nil]
  | cons p rest ih =>
    rw [assocLookup_cons, List.map_cons, List.mem_cons]
    by_cases hp : p.1 = k
    · simp [hp]
    · have h2 : ¬ k = p.1 := fun hh => hp hh.symm
      simp [hp, h2, ih]

theorem assocLookup_eq_some_of_mem {α : Type} (l : List (String × α)) (e : String) (d : α)
    (hnd : (l.map Prod.fst).Nodup) (hm : (e, d) ∈ l) : assocLookup l e = some d := by
  induction l with
  | nil => simp at hm
  | cons p rest ih =>
    rw [assocLookup_cons]
    rcases List.mem_cons.1 hm with hm | hm
    · simp [← hm]
    · have hne : p.1 ≠ e := by
        intro hh
        have hmem : e ∈ rest.map Prod.fst := List.mem_map.2 ⟨(e, d), hm, rfl⟩
        simp only [List.map_cons, List.nodup_cons] at hnd
        exact hnd.1 (hh ▸ hmem)
      simp only [List.map_cons, List.nodup_cons] at hnd
      simp [hne, ih hnd.2 hm]

theorem mem_of_assocLookup_eq_some {α : Type} {l : List (String × α)} {e : String} {d : α}
    (h : assocLookup l e = some d) : (e, d) ∈ l := by
  induction l with
  | nil => simp [assocLookup_nil] at h
  | cons p rest ih =>
    rw [assocLookup_cons] at h
    by_cases hp : p.1 = e
    · rw [if_pos hp] at h
      injection h with hh
      obtain ⟨pf, ps⟩ := p
      cases hp
      cases hh
      exact List.mem_cons_self _ _
    · rw [if_neg hp] at h
      exact List.mem_cons_of_mem _ (ih h)

/-! ## Template renderer -/

theorem substSegs_ok (ctx : Ctx) :
    ∀ segs : List Seg, (∀ k ∈ segKeys segs, (lookupCtx ctx k).isSome) →
      substSegs ctx segs = .ok (fillSegs ctx segs)
  | [], _ => rfl
  | .lit c :: rest, h => by
    have ih := substSegs_ok ctx rest (fun k hk => h k (by simpa [segKeys] using hk))
    simp [substSegs, fillSegs, ih, Except.map]
  | .ph k :: rest, h => by
    have hk : (lookupCtx ctx k).isSome := h k (by simp [segKeys])
    obtain ⟨v, hv⟩ := Option.isSome_iff_exists.1 hk
    have ih := substSegs_ok ctx rest (fun k2 hk2 => h k2 (by simp [segKeys, hk2]))
    simp [substSegs, fillSegs, hv, ih, Except.map]

theorem substSegs_missing (ctx : Ctx) :
    ∀ segs : List Seg, ∀ k, firstMissing ctx segs = some k →
      substSegs ctx segs = .error (.keyError k)
  | [], k, h => by simp [firstMissing, segKeys] at h
  | .lit c :: rest, k, h => by
    have h2 : firstMissing ctx rest = some k := by
      simpa [firstMissing, segKeys] using h
    simp [substSegs, substSegs_missing ctx rest k h2, Except.map]
  | .ph k0 :: rest, k, h => by
    simp only [firstMissing, segKeys, List.find?_cons] at h
    cases hl : lookupCtx ctx k0 with
    | none =>
      simp only [hl, Option.isNone_none] at h
      injection h with hh
      subst hh
      simp [substSegs, hl]
    | some v =>
      simp only [hl, Option.isNone_some] at h
      have ih := substSegs_missing ctx rest k h
      simp [substSegs, hl, ih, Except.map]

theorem fillSegs_braceFree (ctx : Ctx) :
    ∀ segs : List Seg, (∀ s ∈ segs, braceFreeSeg ctx s) →
      ∀ c ∈ fillSegs ctx segs, c ≠ lbrace ∧ c ≠ rbrace
  | [], _, c, hc => by simp [fillSegs] at hc
  | .lit c0 :: rest, h, c, hc => by
    have h0 : braceFreeSeg ctx (.lit c0) := h _ (by simp)
    have ih := fillSegs_braceFree ctx rest (fun s hs => h s (by simp [hs]))
    simp only [fillSegs, List.mem_cons] at hc
    rcases hc with rfl | hc
    · exact h0
    · exact ih c hc
  | .ph k :: rest, h, c, hc => by
    have h0 : braceFreeSeg ctx (.ph k) := h _ (by simp)
    have ih := fillSegs_braceFree ctx rest (fun s hs => h s (by simp [hs]))
    simp only [fillSegs, List.mem_append] at hc
    rcases hc with hc | hc
    · exact h0 c hc
    · exact ih c hc

theorem firstMissing_mem {ctx : Ctx} {segs : List Seg} {k : String}
    (h : firstMissing ctx segs = some k) :
    k ∈ segKeys segs ∧ lookupCtx ctx k = none := by
  refine ⟨List.mem_of_find?_eq_some h, ?_⟩
  have hp := List.find?_some h
  exact Option.isNone_iff_eq_none.1 (by simpa using hp)

/-! ## Base64 -/

theorem b64index_b64char : ∀ n, n < 64 → b64index (b64char n) = some n := by decide

theorem b64char_ne_pad : ∀ n, n < 64 → b64char n ≠ '=' := by decide

theorem b64index_lt {c : Char} {n : Nat} (h : b64index c = some n) : n < 64 := by
  have hm := List.mem_of_find?_eq_some h
  simpa using hm

/-- Every byte produced by `b64decode` is below 256. -/
theorem b64decode_lt :
    ∀ s bs, b64decode s = some bs → ∀ x ∈ bs, x < 256
  | [], bs, h => by
    simp only [b64decode, Option.some.injEq] at h
    subst h; simp
  | [_], bs, h => by simp [b64decode] at h
  | [_, _], bs, h => by simp [b64decode] at h
  | [_, _, _], bs, h => by simp [b64decode] at h
  | c1 :: c2 :: c3 :: c4 :: rest, bs, h => by
    simp only [b64decode] at h
    split at h
    · rename_i x1 x2 hx1 hx2
      have hb1 := b64index_lt hx1
      have hb2 := b64index_lt hx2
      split at h
      · split at h
        · cases h
          intro x hx
          simp only [List.mem_singleton] at hx
          omega
        · cases h
      · split at h
        · rename_i x3 hx3
          have hb3 := b64index_lt hx3
          split at h
          · split at h
            · cases h
              intro x hx
              simp only [List.mem_cons, List.not_mem_nil, or_false] at hx
              rcases hx with hx | hx <;> omega
            · cases h
          · split at h
            · rename_i x4 hx4
              have hb4 := b64index_lt hx4
              split at h
              · rename_i bs2 hr
                cases h
                have IH := b64decode_lt rest bs2 hr
                intro x hx
                simp only [List.mem_cons] at hx
                rcases hx with hx | hx | hx | hx
                · omega
                · omega
                · omega
                · exact IH x hx
              · cases h
            · cases h
        · cases h
    · cases h

/-- Decoding inverts encoding on byte lists. -/
theorem b64decode_encode :
    ∀ l : List Nat, (∀ x ∈ l, x < 256) → b64decode (b64encode l) = some l
  | [], _ => rfl
  | [a], h => by
    have ha : a < 256 := h a (by simp)
    have h1 := b64index_b64char (a / 4) (by omega)
    have h2 := b64index_b64char (a % 4 * 16) (by omega)
    simp only [b64encode, b64decode, h1, h2, if_pos rfl, and_self, if_true,
      Option.some.injEq, List.cons.injEq, and_true]
    omega
  | [a, b], h => by
    have ha : a < 256 := h a (by simp)
    have hb : b < 256 := h b (by simp)
    have h1 := b64index_b64char (a / 4) (by omega)
    have h2 := b64index_b64char (a % 4 * 16 + b / 16) (by omega)
    have h3 := b64index_b64char (b % 16 * 4) (by omega)
    have hne := b64char_ne_pad (b % 16 * 4) (by omega)
    simp [b64encode, b64decode, h1, h2, h3, hne]
    omega
  | a :: b :: c :: rest, h => by
    have ha : a < 256 := h a (by simp)
    have hb : b < 256 := h b (by simp)
    have hc : c < 256 := h c (by simp)
    have IH := b64decode_encode rest (fun x hx => h x (by simp [hx]))
    have h1 := b64index_b64char (a / 4) (by omega)
    have h2 := b64index_b64char (a % 4 * 16 + b / 16) (by omega)
    have h3 := b64index_b64char (b % 16 * 4 + c / 64) (by omega)
    have h4 := b64index_b64char (c % 64) (by omega)
    have hne3 := b64char_ne_pad (b % 16 * 4 + c / 64) (by omega)
    have hne4 := b64char_ne_pad (c % 64) (by omega)
    simp [b64encode, b64decode, h1, h2, h3, h4, hne3, hne4, IH]
    omega

theorem pack8LE_length (n : Nat) : (pack8LE n).length = 8 := by
  simp [pack8LE]

theorem pack8LE_lt (n : Nat) : ∀ x ∈ pack8LE n, x < 256 := by
  intro x hx
  simp only [pack8LE, List.mem_map] at hx
  obtain ⟨i, _, rfl⟩ := hx
  exact Nat.mod_lt _ (by norm_num)

/-! ## Generic mapIdx lemmas -/

theorem mapIdx_length {α β : Type} (f : Nat → α → β) :
    ∀ i (l : List α), (mapIdx f i l).length = l.length
  | _, [] => rfl
  | i, a :: rest => by simp [mapIdx, mapIdx_length f (i + 1) rest]

theorem mapIdx_getElem {α β : Type} (f : Nat → α → β) :
    ∀ i (l : List α) (j : Nat), (mapIdx f i l)[j]? = (l[j]?).map (f (i + j))
  | _, [], j => by simp [mapIdx]
  | i, a :: rest, 0 => by simp [mapIdx]
  | i, a :: rest, j + 1 => by
    have ih := mapIdx_getElem f (i + 1) rest j
    simp only [mapIdx, List.getElem?_cons_succ, ih]
    ring_nf

/-! ## String literal facts used to count statuses -/

theorem beq_sent_sent : ("Sent" == "Sent") = true := by decide

theorem beq_failed_sent : ("Failed" == "Sent") = false := by decide

theorem beq_sent_failed : ("Sent" == "Failed") = false := by decide

theorem beq_failed_failed : ("Failed" == "Failed") = true := by decide

/-! ## Launch loop characterisation -/

theorem launchLoop_results (env : LaunchEnv) (st bt : String) :
    ∀ (rows : List Ctx) (i : Nat) (acc : List (String × Recipient)),
      (launchLoop env st bt i rows acc).2.2.1 = mapIdx (launchRow env st bt) i rows := by
  intro rows
  induction rows with
  | nil => intro i acc; rfl
  | cons row rest ih =>
    intro i acc
    simp only [launchLoop, mapIdx, launchRow]
    by_cases h1 : (render_email_template st (buildContext row)).2 = ""
    · by_cases h2 : (render_email_template bt (buildContext row)).2 = ""
      · by_cases h3 : env.sendOk i
        · simp [h1, h2, h3, ih]
        · simp [h1, h2, h3, ih]
      · simp [h1, h2, ih]
    · simp [h1, ih]

theorem launchLoop_sent (env : LaunchEnv) (st bt : String) :
    ∀ (rows : List Ctx) (i : Nat) (acc : List (String × Recipient)),
      (launchLoop env st bt i rows acc).1 =
        ((launchLoop env st bt i rows acc).2.2.1.filter
          (fun r => r.status == "Sent")).length := by
  intro rows
  induction rows with
  | nil => intro i acc; rfl
  | cons row rest ih =>
    intro i acc
    simp only [launchLoop]
    by_cases h1 : (render_email_template st (buildContext row)).2 = ""
    · by_cases h2 : (render_email_template bt (buildContext row)).2 = ""
      · by_cases h3 : env.sendOk i
        · simp [h1, h2, h3, ih, List.filter_cons, beq_sent_sent]
        · simp [h1, h2, h3, ih, List.filter_cons, beq_failed_sent]
      · simp [h1, h2, ih, List.filter_cons, beq_failed_sent]
    · simp [h1, ih, List.filter_cons, beq_failed_sent]

theorem launchLoop_failed (env : LaunchEnv) (st bt : String) :
    ∀ (rows : List Ctx) (i : Nat) (acc : List (String × Recipient)),
      (launchLoop env st bt i rows acc).2.1 =
        ((launchLoop env st bt i rows acc).2.2.1.filter
          (fun r => r.status == "Failed")).length := by
  intro rows
  induction rows with
  | nil => intro i acc; rfl
  | cons row rest ih =>
    intro i acc
    simp only [launchLoop]
    by_cases h1 : (render_email_template st (buildContext row)).2 = ""
    · by_cases h2 : (render_email_template bt (buildContext row)).2 = ""
      · by_cases h3 : env.sendOk i
        · simp [h1, h2, h3, ih, List.filter_cons, beq_sent_failed]
        · simp [h1, h2, h3, ih, List.filter_cons, beq_failed_failed]
      · simp [h1, h2, ih, List.filter_cons, beq_failed_failed]
    · simp [h1, ih, List.filter_cons, beq_failed_failed]

theorem launchRow_status (env : LaunchEnv) (st bt : String) (i : Nat) (row : Ctx) :
    (launchRow env st bt i row).status = "Sent" ∨
    (launchRow env st bt i row).status = "Failed" := by
  simp only [launchRow]
  by_cases h1 : (render_email_template st (buildContext row)).2 = ""
  · by_cases h2 : (render_email_template bt (buildContext row)).2 = ""
    · by_cases h3 : env.sendOk i
      · simp [h1, h2, h3]
      · simp [h1, h2, h3]
    · simp [h1, h2]
  · simp [h1]

theorem mapIdx_launchRow_status (env : LaunchEnv) (st bt : String) :
    ∀ (rows : List Ctx) (i : Nat), ∀ r ∈ mapIdx (launchRow env st bt) i rows,
      r.status = "Sent" ∨ r.status = "Failed" := by
  intro rows
  induction rows with
  | nil => intro i r hr; simp [mapIdx] at hr
  | cons row rest ih =>
    intro i r hr
    simp only [mapIdx, List.mem_cons] at hr
    rcases hr with rfl | hr
    · exact launchRow_status env st bt i row
    · exact ih (i + 1) r hr

theorem failed_ne_sent : ("Failed" : String) ≠ "Sent" := by decide

theorem launchLoop_recips_isSome (env : LaunchEnv) (st bt : String) :
    ∀ (rows : List Ctx) (i : Nat) (acc : List (String × Recipient)) (e : String),
      (assocLookup (launchLoop env st bt i rows acc).2.2.2.1 e).isSome ↔
        ((assocLookup acc e).isSome ∨
          ∃ r ∈ (launchLoop env st bt i rows acc).2.2.1,
            r.email = e ∧ r.status = "Sent") := by
  intro rows
  induction rows with
  | nil => intro i acc e; simp [launchLoop]
  | cons row rest ih =>
    intro i acc e
    simp only [launchLoop]
    by_cases h1 : (render_email_template st (buildContext row)).2 = ""
    · by_cases h2 : (render_email_template bt (buildContext row)).2 = ""
      · by_cases h3 : env.sendOk i
        · by_cases he : e = rowEmail row
          · simp [h1, h2, h3, ih, assocLookup_assocSet, he]
          · have he2 : ¬ rowEmail row = e := fun hh => he hh.symm
            simp [h1, h2, h3, ih, assocLookup_assocSet, he, he2]
        · simp [h1, h2, h3, ih, failed_ne_sent]
      · simp [h1, h2, ih, failed_ne_sent]
    · simp [h1, ih, failed_ne_sent]

theorem launchLoop_recips_values (env : LaunchEnv) (st bt : String) :
    ∀ (rows : List Ctx) (i : Nat) (acc : List (String × Recipient)) (e : String)
      (d : Recipient),
      assocLookup (launchLoop env st bt i rows acc).2.2.2.1 e = some d →
      assocLookup acc e = some d ∨
        (d.followups_sent = 0 ∧ ∃ j, d.last_sent_date = env.now1 j ∧
          d.next_followup_date = env.now2 j + 3 * usPerDay) := by
  intro rows
  induction rows with
  | nil => intro i acc e d h; exact Or.inl h
  | cons row rest ih =>
    intro i acc e d h
    simp only [launchLoop] at h
    by_cases h1 : (render_email_template st (buildContext row)).2 = ""
    · by_cases h2 : (render_email_template bt (buildContext row)).2 = ""
      · by_cases h3 : env.sendOk i
        · simp only [h1, h2, h3, ne_eq, not_true_eq_false, not_false_eq_true,
            if_true, if_false, ite_true, ite_false, eq_self_iff_true, not_true,
            Bool.false_eq_true] at h
          rcases ih (i + 1) _ e d h with hs | hs
          · rw [assocLookup_assocSet] at hs
            by_cases he : e = rowEmail row
            · rw [if_pos he] at hs
              injection hs with hs
              subst hs
              exact Or.inr ⟨rfl, i, rfl, rfl⟩
            · rw [if_neg he] at hs
              exact Or.inl hs
          · exact Or.inr hs
        · simp only [h1, h2, h3, ne_eq, not_true_eq_false, not_false_eq_true,
            if_true, if_false, ite_true, ite_false, eq_self_iff_true, not_true,
            Bool.false_eq_true] at h
          exact ih _ _ _ _ h
      · simp only [h1, h2, ne_eq, not_true_eq_false, not_false_eq_true,
          if_true, if_false, ite_true, ite_false, eq_self_iff_true, not_true] at h
        exact ih _ _ _ _ h
    · simp only [h1, ne_eq, not_false_eq_true, if_true, ite_true] at h
      exact ih _ _ _ _ h

/-! ## Follow-up loop characterisation -/

theorem followLoop_results (env : FollowEnv) (fs fb : String) (intv : Int) :
    ∀ (due : List (String × Recipient)) (i : Nat) (recips : List (String × Recipient)),
      (followLoop env fs fb intv i due recips).2.2.1 = mapIdx (followRow env fb) i due := by
  intro due
  induction due with
  | nil => intro i recips; rfl
  | cons p rest ih =>
    intro i recips
    simp only [followLoop, mapIdx, followRow]
    by_cases hb : (render_email_template fb (followCtx p)).2 = ""
    · by_cases hs : env.sendOk i
      · simp [hb, hs, ih]
      · simp [hb, hs, ih]
    · simp [hb, ih]

theorem followRow_email (env : FollowEnv) (fb : String) (i : Nat)
    (p : String × Recipient) : (followRow env fb i p).email = p.1 := by
  simp only [followRow]
  by_cases hb : (render_email_template fb (followCtx p)).2 = ""
  · by_cases hs : env.sendOk i
    · simp [hb, hs]
    · simp [hb, hs]
  · simp [hb]

theorem mapIdx_followRow_emails (env : FollowEnv) (fb : String) :
    ∀ (due : List (String × Recipient)) (i : Nat),
      (mapIdx (followRow env fb) i due).map (fun r => r.email) = due.map Prod.fst := by
  intro due
  induction due with
  | nil => intro i; rfl
  | cons p rest ih =>
    intro i
    simp [mapIdx, followRow_email, ih]

theorem followLoop_lookup_unchanged (env : FollowEnv) (fs fb : String) (intv : Int) :
    ∀ (due : List (String × Recipient)) (i : Nat) (recips : List (String × Recipient))
      (e : String), e ∉ due.map Prod.fst →
      assocLookup (followLoop env fs fb intv i due recips).2.2.2.1 e =
        assocLookup recips e := by
  intro due
  induction due with
  | nil => intro i recips e _; rfl
  | cons p rest ih =>
    intro i recips e he
    have hne : e ≠ p.1 := by
      intro hh
      exact he (by simp [hh])
    have he2 : e ∉ rest.map Prod.fst := by
      intro hh
      exact he (by simp [hh])
    simp only [followLoop]
    by_cases hb : (render_email_template fb (followCtx p)).2 = ""
    · by_cases hs : env.sendOk i
      · simp only [hb, hs]
        simp only [ne_eq, not_true_eq_false, not_false_eq_true, eq_self_iff_true,
          if_true, if_false, ite_true, ite_false]
        rw [ih (i + 1) _ e he2, assocLookup_assocSet, if_neg hne]
      · simp only [hb, hs]
        simp only [ne_eq, not_true_eq_false, not_false_eq_true, eq_self_iff_true,
          if_true, if_false, ite_true, ite_false, Bool.false_eq_true]
        exact ih (i + 1) _ e he2
    · simp only [hb, ne_eq, not_false_eq_true, if_true, ite_true]
      exact ih (i + 1) _ e he2

theorem followLoop_update (env : FollowEnv) (fs fb : String) (intv : Int) :
    ∀ (due : List (String × Recipient)) (i : Nat) (recips : List (String × Recipient)),
      (due.map Prod.fst).Nodup →
      (∀ p ∈ due, assocLookup recips p.1 = some p.2) →
      ∀ p ∈ due, ∃ d2,
        assocLookup (followLoop env fs fb intv i due recips).2.2.2.1 p.1 = some d2 ∧
        (d2 = p.2 ∨ updRel env intv p.2 d2) := by
  intro due
  induction due with
  | nil => intro i recips _ _ p hp; simp at hp
  | cons q rest ih =>
    intro i recips hnd hmem p hp
    have hq1 : q.1 ∉ rest.map Prod.fst := by
      simp only [List.map_cons, List.nodup_cons] at hnd
      exact hnd.1
    have hndr : (rest.map Prod.fst).Nodup := by
      simp only [List.map_cons, List.nodup_cons] at hnd
      exact hnd.2
    simp only [followLoop]
    by_cases hb : (render_email_template fb (followCtx q)).2 = ""
    · by_cases hs : env.sendOk i
      · -- successful send for q: its record is replaced
        simp only [hb, hs]
        simp only [ne_eq, not_true_eq_false, not_false_eq_true, eq_self_iff_true,
          if_true, if_false, ite_true, ite_false]
        rcases List.mem_cons.1 hp with rfl | hp
        · refine ⟨⟨p.2.name, env.msgid i, p.2.subject, env.tidx i,
            p.2.followups_sent + 1, env.now, env.now + intv * usPerDay⟩, ?_, ?_⟩
          · rw [followLoop_lookup_unchanged env fs fb intv rest (i + 1) _ p.1 hq1,
              assocLookup_assocSet, if_pos rfl]
          · exact Or.inr ⟨rfl, rfl, rfl, rfl, rfl⟩
        · refine ih (i + 1) _ hndr ?_ p hp
          intro p2 hp2
          have hne : p2.1 ≠ q.1 := by
            intro hh
            exact hq1 (hh ▸ List.mem_map.2 ⟨p2, hp2, rfl⟩)
          rw [assocLookup_assocSet, if_neg hne]
          exact hmem p2 (List.mem_cons_of_mem _ hp2)
      · -- transport failure for q: recipients unchanged
        simp only [hb, hs]
        simp only [ne_eq, not_true_eq_false, not_false_eq_true, eq_self_iff_true,
          if_true, if_false, ite_true, ite_false, Bool.false_eq_true]
        rcases List.mem_cons.1 hp with rfl | hp
        · refine ⟨p.2, ?_, Or.inl rfl⟩
          rw [followLoop_lookup_unchanged env fs fb intv rest (i + 1) _ p.1 hq1]
          exact hmem p (List.mem_cons_self _ _)
        · exact ih (i + 1) recips hndr
            (fun p2 hp2 => hmem p2 (List.mem_cons_of_mem _ hp2)) p hp
    · -- body render failure for q: recipients unchanged
      simp only [hb, ne_eq, not_false_eq_true, if_true, ite_true]
      rcases List.mem_cons.1 hp with rfl | hp
      · refine ⟨p.2, ?_, Or.inl rfl⟩
        rw [followLoop_lookup_unchanged env fs fb intv rest (i + 1) _ p.1 hq1]
        exact hmem p (List.mem_cons_self _ _)
      · exact ih (i + 1) recips hndr
          (fun p2 hp2 => hmem p2 (List.mem_cons_of_mem _ hp2)) p hp

theorem followLoop_sends (env : FollowEnv) (fs fb : String) (intv : Int) :
    ∀ (due : List (String × Recipient)) (i : Nat) (recips : List (String × Recipient))
      (m : SentMsg), m ∈ (followLoop env fs fb intv i due recips).2.2.2.2 →
      ∃ p ∈ due, m.to_addr = p.1 ∧ m.subject = "Re: " ++ p.2.subject ∧
        m.in_reply_to = some p.2.message_id := by
  intro due
  induction due with
  | nil => intro i recips m hm; simp [followLoop] at hm
  | cons p rest ih =>
    intro i recips m hm
    simp only [followLoop] at hm
    by_cases hb : (render_email_template fb (followCtx p)).2 = ""
    · by_cases hs : env.sendOk i
      · simp only [hb, hs] at hm
        simp only [ne_eq, not_true_eq_false, not_false_eq_true, eq_self_iff_true,
          if_true, if_false, ite_true, ite_false, List.mem_cons] at hm
        rcases hm with rfl | hm
        · exact ⟨p, List.mem_cons_self _ _, rfl, rfl, rfl⟩
        · obtain ⟨p2, hp2, hh⟩ := ih (i + 1) _ m hm
          exact ⟨p2, List.mem_cons_of_mem _ hp2, hh⟩
      · simp only [hb, hs] at hm
        simp only [ne_eq, not_true_eq_false, not_false_eq_true, eq_self_iff_true,
          if_true, if_false, ite_true, ite_false, Bool.false_eq_true,
          List.mem_cons] at hm
        rcases hm with rfl | hm
        · exact ⟨p, List.mem_cons_self _ _, rfl, rfl, rfl⟩
        · obtain ⟨p2, hp2, hh⟩ := ih (i + 1) _ m hm
          exact ⟨p2, List.mem_cons_of_mem _ hp2, hh⟩
    · simp only [hb, ne_eq, not_false_eq_true, if_true, ite_true] at hm
      obtain ⟨p2, hp2, hh⟩ := ih (i + 1) _ m hm
      exact ⟨p2, List.mem_cons_of_mem _ hp2, hh⟩

theorem followLoop_subject_template_irrelevant (env : FollowEnv) (fs fs2 fb : String)
    (intv : Int) :
    ∀ (due : List (String × Recipient)) (i : Nat) (recips : List (String × Recipient)),
      followLoop env fs fb intv i due recips = followLoop env fs2 fb intv i due recips := by
  intro due
  induction due with
  | nil => intro i recips; rfl
  | cons p rest ih =>
    intro i recips
    simp only [followLoop]
    by_cases hb : (render_email_template fb (followCtx p)).2 = ""
    · by_cases hs : env.sendOk i
      · simp [hb, hs, ih]
      · simp [hb, hs, ih]
    · simp [hb, ih]

/-- The keys of the due list are distinct whenever the recipient keys are. -/
theorem dueFilter_keys_nodup (maxF : Nat) (force : Bool) (now : Int)
    (recips : List (String × Recipient)) (hnd : (recips.map Prod.fst).Nodup) :
    ((dueFilter maxF force now recips).map Prod.fst).Nodup := by
  have hsub : (dueFilter maxF force now recips).map Prod.fst
      |>.Sublist (recips.map Prod.fst) :=
    (List.filter_sublist _).map Prod.fst
  exact hnd.sublist hsub

/-- Due-list membership of a key, characterised by the recipient's fields. -/
theorem dueFilter_key_iff (maxF : Nat) (force : Bool) (now : Int)
    (recips : List (String × Recipient)) (hnd : (recips.map Prod.fst).Nodup)
    (e : String) (d : Recipient) (h : assocLookup recips e = some d) :
    e ∈ (dueFilter maxF force now recips).map Prod.fst ↔
      (d.followups_sent < maxF ∧ (force = true ∨ d.next_followup_date ≤ now)) := by
  constructor
  · intro he
    obtain ⟨p, hp, hpe⟩ := List.mem_map.1 he
    have hpm := List.mem_of_mem_filter hp
    have hpp := List.of_mem_filter hp
    have hlk : assocLookup recips p.1 = some p.2 :=
      assocLookup_eq_some_of_mem recips p.1 p.2 hnd hpm
    rw [hpe, h] at hlk
    injection hlk with hlk
    rw [← hlk] at hpp
    simpa using hpp
  · intro hd
    refine List.mem_map.2 ⟨(e, d), List.mem_filter.2 ⟨mem_of_assocLookup_eq_some h, ?_⟩, rfl⟩
    simpa using hd

/-- The recipient record stored under `e` after a follow-up batch: either
it is unchanged, or it was advanced by a successful follow-up send. -/
theorem send_followup_lookup (env : FollowEnv) (cname sender fs fb : String)
    (force : Bool) (db : DB) (c : Campaign) (e : String) (dOld : Recipient)
    (hname : assocLookup db cname = some c)
    (hnd : (c.recipients.map Prod.fst).Nodup)
    (hOld : assocLookup c.recipients e = some dOld) :
    ∃ c2 dNew,
      assocLookup (send_followup_emails env cname sender fs fb force db).db cname = some c2 ∧
      assocLookup c2.recipients e = some dNew ∧
      (dNew = dOld ∨ updRel env c.followup_interval_days dOld dNew) := by
  unfold send_followup_emails
  rw [hname]
  simp only
  by_cases hd : (dueFilter c.total_followups_planned force env.now c.recipients).length = 0
  · rw [if_pos hd]
    exact ⟨c, dOld, hname, hOld, Or.inl rfl⟩
  · rw [if_neg hd]
    by_cases ha : env.authOk
    · rw [if_neg (by simp [ha])]
      set R := (followLoop env fs fb c.followup_interval_days 0
        (dueFilter c.total_followups_planned force env.now c.recipients)
        c.recipients).2.2.2.1 with hR
      have hc2 : assocLookup (assocSet db cname { c with recipients := R }) cname =
          some { c with recipients := R } := by
        rw [assocLookup_assocSet, if_pos rfl]
      by_cases he : e ∈ (dueFilter c.total_followups_planned force env.now
          c.recipients).map Prod.fst
      · obtain ⟨p, hp, hpe⟩ := List.mem_map.1 he
        have hpm := List.mem_of_mem_filter hp
        have hlk : assocLookup c.recipients p.1 = some p.2 :=
          assocLookup_eq_some_of_mem c.recipients p.1 p.2 hnd hpm
        have hp2 : p.2 = dOld := by
          rw [hpe, hOld] at hlk
          injection hlk with hh
          exact hh.symm
        obtain ⟨d2, hd2, hd2rel⟩ := followLoop_update env fs fb
          c.followup_interval_days
          (dueFilter c.total_followups_planned force env.now c.recipients) 0
          c.recipients
          (dueFilter_keys_nodup _ _ _ _ hnd)
          (fun p2 hp2 => assocLookup_eq_some_of_mem c.recipients p2.1 p2.2 hnd
            (List.mem_of_mem_filter hp2))
          p hp
        refine ⟨{ c with recipients := R }, d2, hc2, ?_, ?_⟩
        · rw [← hpe]
          exact hd2
        · rw [hp2] at hd2rel
          exact hd2rel
      · refine ⟨{ c with recipients := R }, dOld, hc2, ?_, Or.inl rfl⟩
        show assocLookup R e = some dOld
        rw [hR, followLoop_lookup_unchanged env fs fb c.followup_interval_days _ 0
          c.recipients e he]
        exact hOld
    · rw [if_pos (by simp [ha])]
      exact ⟨c, dOld, hname, hOld, Or.inl rfl⟩

/-! # Claim theorems -/

/-- C1: a thread index generated with no parent base64-decodes to exactly
22 raw bytes, namely the 6-byte little-endian truncation of the
Windows-epoch FILETIME followed by the 16 random GUID bytes; for a parent
index that (after padding to a multiple of four characters) decodes to
`n` bytes, the generated child index decodes to exactly `n + 5` bytes
whose first `n` equal the parent's bytes. -/
theorem generate_thread_index_spec (env : ThreadEnv)
    (h16 : env.guid.length = 16) (hguid : ∀ x ∈ env.guid, x < 256) :
    (∃ bs, b64decode (generate_thread_index env none) = some bs ∧
       bs.length = 22 ∧ bs = (pack8LE env.filetime).take 6 ++ env.guid) ∧
    (∀ p bs, b64decode (padB64 p) = some bs →
       ∃ cs, b64decode (generate_thread_index env (some p)) = some cs ∧
         cs.length = bs.length + 5 ∧ cs.take bs.length = bs) := by
  have hlen6 : ((pack8LE env.filetime).take 6).length = 6 := by
    rw [List.length_take, pack8LE_length]
    rfl
  have htake6 : ∀ x ∈ (pack8LE env.filetime).take 6 ++ env.guid, x < 256 := by
    intro x hx
    rcases List.mem_append.1 hx with hx | hx
    · exact pack8LE_lt _ _ (List.mem_of_mem_take hx)
    · exact hguid _ hx
  constructor
  · refine ⟨_, ?_, ?_, rfl⟩
    · simp only [generate_thread_index]
      exact b64decode_encode _ htake6
    · rw [List.length_append, hlen6, h16]
  · intro p bs hdec
    have hlen5 : ((pack8LE env.filetime).take 5).length = 5 := by
      rw [List.length_take, pack8LE_length]
      rfl
    have hbytes : ∀ x ∈ bs ++ (pack8LE env.filetime).take 5, x < 256 := by
      intro x hx
      rcases List.mem_append.1 hx with hx | hx
      · exact b64decode_lt _ _ hdec x hx
      · exact pack8LE_lt _ _ (List.mem_of_mem_take hx)
    refine ⟨bs ++ (pack8LE env.filetime).take 5, ?_, ?_, ?_⟩
    · simp only [generate_thread_index, hdec]
      exact b64decode_encode _ hbytes
    · rw [List.length_append, hlen5]
    · exact List.take_left bs _

/-- Witness for `generate_thread_index_spec` at a concrete environment
(zero FILETIME, all-zero GUID) and the concrete parent `"AAAA"`. -/
theorem generate_thread_index_spec_witness :
    (∃ bs, b64decode (generate_thread_index ⟨0, List.replicate 16 0⟩ none) = some bs ∧
       bs.length = 22 ∧ bs = (pack8LE 0).take 6 ++ List.replicate 16 0) ∧
    (∃ cs, b64decode (generate_thread_index ⟨0, List.replicate 16 0⟩
         (some ['A', 'A', 'A', 'A'])) = some cs ∧
       cs.length = [0, 0, 0].length + 5 ∧ cs.take [0, 0, 0].length = [0, 0, 0]) := by
  have h := generate_thread_index_spec ⟨0, List.replicate 16 0⟩ (by decide) (by decide)
  exact ⟨h.1, h.2 ['A', 'A', 'A', 'A'] [0, 0, 0] (by decide)⟩

/-- C3 counterexample: the claim says counts such as 30 pause 0, but 30 is
a positive multiple of 10, so the code pauses 2.5 units, not 0. -/
theorem apply_smart_delay_at_30 : apply_smart_delay 30 = 2.5 ∧ apply_smart_delay 30 ≠ 0 := by
  constructor
  · norm_num [apply_smart_delay]
  · norm_num [apply_smart_delay]

/-- C3 (amended): the throttle is a pure function of the cumulative
successful-send count, checking multiples in the priority order 100, 50,
10 (pausing 8, 5, 2.5 respectively, and the longest applicable pause
exactly once); counts that are no multiple of 10, such as 33 or 77,
pause 0. -/
theorem apply_smart_delay_spec :
    (∀ n : Nat, 0 < n →
      (n % 100 = 0 → apply_smart_delay n = 8) ∧
      (n % 100 ≠ 0 → n % 50 = 0 → apply_smart_delay n = 5) ∧
      (n % 100 ≠ 0 → n % 50 ≠ 0 → n % 10 = 0 → apply_smart_delay n = 2.5) ∧
      (n % 100 ≠ 0 → n % 50 ≠ 0 → n % 10 ≠ 0 → apply_smart_delay n = 0)) ∧
    apply_smart_delay 100 = 8 ∧ apply_smart_delay 33 = 0 ∧ apply_smart_delay 77 = 0 := by
  refine ⟨fun n hn => ⟨?_, ?_, ?_, ?_⟩, ?_, ?_, ?_⟩
  · intro h100
    simp [apply_smart_delay, hn, h100]
  · intro h100 h50
    simp [apply_smart_delay, hn, h100, h50]
  · intro h100 h50 h10
    simp [apply_smart_delay, hn, h100, h50, h10]
  · intro h100 h50 h10
    simp [apply_smart_delay, hn, h100, h50, h10]
  · norm_num [apply_smart_delay]
  · norm_num [apply_smart_delay]
  · norm_num [apply_smart_delay]

/-- Witness for `apply_smart_delay_spec`: count 250 is no multiple of 100
but a multiple of 50, so it pauses 5; count 100 pauses 8. -/
theorem apply_smart_delay_spec_witness :
    apply_smart_delay 250 = 5 ∧ apply_smart_delay 100 = 8 := by
  have h := apply_smart_delay_spec
  exact ⟨(h.1 250 (by norm_num)).2.1 (by norm_num) (by norm_num), h.2.1⟩

/-- C4: for a template whose placeholders are all keys of the context, the
renderer succeeds, returning the fully substituted string and an empty
error (and no placeholder syntax remains when neither the template's
literals nor the substituted values contain braces); for a template
referencing a key absent from the context, it fails with an error naming
exactly that (first) missing key. -/
theorem render_email_template_spec (t : String) (ctx : Ctx) (segs : List Seg)
    (hp : parseTpl t.toList = .ok segs) :
    ((∀ k ∈ segKeys segs, (lookupCtx ctx k).isSome) → renderOk t ctx segs) ∧
    renderMissing t ctx segs := by
  have hp2 : parseTpl t.data = Except.ok segs := hp
  constructor
  · intro hall
    constructor
    · have hs := substSegs_ok ctx segs hall
      simp [render_email_template, pyFormat, hp2, hs]
    · exact fillSegs_braceFree ctx segs
  · intro k hk
    have hs := substSegs_missing ctx segs k hk
    have hm := firstMissing_mem hk
    refine ⟨?_, hm⟩
    simp [render_email_template, pyFormat, hp2, hs]

/-- C5: after a launch batch with a fresh name, nonempty input and
successful authentication, the store maps the campaign name to a record
whose recipient map holds exactly the successfully submitted recipients
(each with zero follow-ups sent), and the returned counts match the
per-recipient `Sent`/`Failed` results, one per input row. -/
theorem send_bulk_emails_post (env : LaunchEnv) (df : List Ctx)
    (cname sender st bt : String) (db : DB)
    (hname : assocLookup db cname = none) (hdf : df ≠ []) (hauth : env.authOk = true) :
    launchPost df cname (send_bulk_emails env df cname sender st bt db) := by
  have hlen : ¬ df.length = 0 := fun hh => hdf (List.length_eq_zero.1 hh)
  have hsome : ¬ (assocLookup db cname).isSome = true := by simp [hname]
  have hA : ¬ ¬ env.authOk = true := by simp [hauth]
  unfold send_bulk_emails
  rw [if_neg hlen, if_neg hsome, if_neg hA]
  refine ⟨rfl, ⟨env.created_at, sender, st, bt, 5, 3,
    (launchLoop env st bt 0 df []).2.2.2.1⟩, ?_, ?_, ?_, ?_, ?_, ?_, ?_⟩
  · show assocLookup (assocSet db cname _) cname = some _
    rw [assocLookup_assocSet, if_pos rfl]
  · show (launchLoop env st bt 0 df []).2.2.1.length = df.length
    rw [launchLoop_results, mapIdx_length]
  · show ∀ r ∈ (launchLoop env st bt 0 df []).2.2.1, _
    rw [launchLoop_results]
    exact mapIdx_launchRow_status env st bt df 0
  · exact launchLoop_sent env st bt df 0 []
  · exact launchLoop_failed env st bt df 0 []
  · intro e
    rw [launchLoop_recips_isSome]
    simp [assocLookup_nil]
  · intro e rec h
    rcases launchLoop_recips_values env st bt df 0 [] e rec h with hs | hs
    · simp [assocLookup_nil] at hs
    · exact hs.1

/-- Witness for `send_bulk_emails_post`: a two-recipient launch where the
first `sendmail` succeeds and the second fails. -/
theorem send_bulk_emails_post_witness :
    launchPost dfW "C1"
      (send_bulk_emails envL1 dfW "C1" "me@x.com" "Hi {Name}" "Body {Name}" []) :=
  send_bulk_emails_post envL1 dfW "C1" "me@x.com" "Hi {Name}" "Body {Name}" []
    rfl (by decide) rfl

/-- C8: launching a nonempty recipient list under a campaign name already
present in the store returns `sent = 0`, `failed = 0` and no results,
leaves the store exactly unchanged, and attempts no send and no session
connection (the outcome is the same for every environment, in particular
when authentication would fail). -/
theorem send_bulk_emails_name_collision (env : LaunchEnv) (df : List Ctx)
    (cname sender st bt : String) (db : DB) (c : Campaign)
    (hname : assocLookup db cname = some c) (hdf : df ≠ []) :
    send_bulk_emails env df cname sender st bt db = ⟨none, 0, 0, [], db, []⟩ := by
  have hlen : ¬ df.length = 0 := fun hh => hdf (List.length_eq_zero.1 hh)
  unfold send_bulk_emails
  rw [if_neg hlen, if_pos (by simp [hname])]

/-- Witness for `send_bulk_emails_name_collision` at a concrete store (in
an environment whose authentication would fail, confirming that no
connection is even attempted). -/
theorem send_bulk_emails_name_collision_witness :
    send_bulk_emails ⟨false, "bad", fun _ => true, fun _ => "e", fun _ => "m",
        fun _ => "T", fun _ => 0, fun _ => 0, 0⟩ dfW "C1" "me@x.com" "S" "B"
        [("C1", ⟨0, "s", "a", "b", 5, 3, []⟩)] =
      ⟨none, 0, 0, [], [("C1", ⟨0, "s", "a", "b", 5, 3, []⟩)], []⟩ :=
  send_bulk_emails_name_collision _ dfW "C1" "me@x.com" "S" "B"
    [("C1", ⟨0, "s", "a", "b", 5, 3, []⟩)] ⟨0, "s", "a", "b", 5, 3, []⟩
    rfl (by decide)

/-- C9: when authentication fails at the start of a batch that would
otherwise send (launch with a fresh name and nonempty input; follow-up
with a nonempty due set), the batch raises the authentication error,
returns zero counts and empty results, performs no `sendmail` call,
leaves the campaign store exactly unchanged, and the persistent send
counter is not bumped. -/
theorem auth_failure_aborts :
    (∀ (env : LaunchEnv) (df : List Ctx) (cname sender st bt : String) (db : DB)
       (prev : Nat),
      env.authOk = false → assocLookup db cname = none → df ≠ [] →
      send_bulk_emails env df cname sender st bt db =
        ⟨some ("SMTP authentication failed: " ++ env.authErr), 0, 0, [], db, []⟩ ∧
      updated_total prev (send_bulk_emails env df cname sender st bt db).sent = prev) ∧
    (∀ (env : FollowEnv) (cname sender fs fb : String) (force : Bool) (db : DB)
       (c : Campaign) (prev : Nat),
      env.authOk = false → assocLookup db cname = some c →
      dueFilter c.total_followups_planned force env.now c.recipients ≠ [] →
      send_followup_emails env cname sender fs fb force db =
        ⟨some ("SMTP authentication failed: " ++ env.authErr), 0, 0, [], db, []⟩ ∧
      updated_total prev (send_followup_emails env cname sender fs fb force db).sent = prev) := by
  constructor
  · intro env df cname sender st bt db prev hauth hname hdf
    have hlen : ¬ df.length = 0 := fun hh => hdf (List.length_eq_zero.1 hh)
    have hsome : ¬ (assocLookup db cname).isSome = true := by simp [hname]
    unfold send_bulk_emails
    rw [if_neg hlen, if_neg hsome, if_pos (by simp [hauth])]
    exact ⟨rfl, by simp [updated_total]⟩
  · intro env cname sender fs fb force db c prev hauth hname hdue
    unfold send_followup_emails
    rw [hname]
    simp only
    rw [if_neg (fun hh => hdue (List.length_eq_zero.1 hh)), if_pos (by simp [hauth])]
    exact ⟨rfl, by simp [updated_total]⟩

/-- Witness for `auth_failure_aborts`: a concrete failing-login launch and
a concrete failing-login follow-up batch with one due recipient. -/
theorem auth_failure_aborts_witness :
    (send_bulk_emails ⟨false, "bad", fun _ => true, fun _ => "e", fun _ => "m",
        fun _ => "T", fun _ => 0, fun _ => 0, 0⟩ dfW "C9" "me@x.com" "S" "B" [] =
      ⟨some "SMTP authentication failed: bad", 0, 0, [], [], []⟩ ∧
     updated_total 41 (send_bulk_emails ⟨false, "bad", fun _ => true, fun _ => "e",
        fun _ => "m", fun _ => "T", fun _ => 0, fun _ => 0, 0⟩ dfW "C9" "me@x.com"
        "S" "B" []).sent = 41) ∧
    (send_followup_emails ⟨false, "bad2", fun _ => true, fun _ => "e", fun _ => "m",
        fun _ => "T", 50⟩ "C1" "me@x.com" "FS" "FB" false dbF =
      ⟨some "SMTP authentication failed: bad2", 0, 0, [], dbF, []⟩ ∧
     updated_total 42 (send_followup_emails ⟨false, "bad2", fun _ => true,
        fun _ => "e", fun _ => "m", fun _ => "T", 50⟩ "C1" "me@x.com" "FS" "FB"
        false dbF).sent = 42) := by
  have h := auth_failure_aborts
  constructor
  · exact h.1 _ dfW "C9" "me@x.com" "S" "B" [] 41 rfl rfl (by decide)
  · exact h.2 _ "C1" "me@x.com" "FS" "FB" false dbF
      ⟨7, "me@x.com", "Hi {Name}", "Body {Name}", 5, 3,
       [("a@x.com", ⟨"Alice", "m0", "Hi Alice", "T0", 0, 0, 0⟩)]⟩ 42 rfl rfl (by decide)

/-- C6: terminal recipients (follow-ups sent at or above the planned
count) are never part of a follow-up batch and their stored record is
untouched, regardless of their next-follow-up date and of force mode; a
non-terminal recipient is processed exactly when force mode is on or
their next-follow-up date is at or before the batch clock. -/
theorem send_followup_emails_due (env : FollowEnv) (cname sender fs fb : String)
    (force : Bool) (db : DB) (c : Campaign)
    (hname : assocLookup db cname = some c)
    (hnd : (c.recipients.map Prod.fst).Nodup)
    (hauth : env.authOk = true) :
    duePost env cname force c (send_followup_emails env cname sender fs fb force db) := by
  intro e d hlk
  unfold send_followup_emails
  rw [hname]
  simp only
  by_cases hd : (dueFilter c.total_followups_planned force env.now c.recipients).length = 0
  · rw [if_pos hd]
    constructor
    · intro _
      exact ⟨by simp, c, hname, hlk⟩
    · intro hlt
      constructor
      · rintro ⟨r, hr, _⟩
        simp at hr
      · intro hdue
        exfalso
        have hmem := (dueFilter_key_iff c.total_followups_planned force env.now
          c.recipients hnd e d hlk).2 ⟨hlt, hdue⟩
        rw [List.length_eq_zero.1 hd] at hmem
        simp at hmem
  · rw [if_neg hd, if_neg (by simp [hauth])]
    have hres : (followLoop env fs fb c.followup_interval_days 0
        (dueFilter c.total_followups_planned force env.now c.recipients)
        c.recipients).2.2.1 =
        mapIdx (followRow env fb) 0
          (dueFilter c.total_followups_planned force env.now c.recipients) :=
      followLoop_results env fs fb c.followup_interval_days _ 0 c.recipients
    constructor
    · intro hterm
      have hnotdue : e ∉ (dueFilter c.total_followups_planned force env.now
          c.recipients).map Prod.fst := by
        rw [dueFilter_key_iff c.total_followups_planned force env.now
          c.recipients hnd e d hlk]
        rintro ⟨hlt2, _⟩
        omega
      constructor
      · intro r hr hre
        have hmem : r.email ∈ (dueFilter c.total_followups_planned force env.now
            c.recipients).map Prod.fst := by
          rw [← mapIdx_followRow_emails env fb _ 0, ← hres]
          exact List.mem_map.2 ⟨r, hr, rfl⟩
        rw [hre] at hmem
        exact hnotdue hmem
      · refine ⟨_, by rw [assocLookup_assocSet, if_pos rfl], ?_⟩
        show assocLookup (followLoop env fs fb c.followup_interval_days 0
          (dueFilter c.total_followups_planned force env.now c.recipients)
          c.recipients).2.2.2.1 e = some d
        rw [followLoop_lookup_unchanged env fs fb c.followup_interval_days _ 0
          c.recipients e hnotdue]
        exact hlk
    · intro hlt
      have h1 : (∃ r ∈ (followLoop env fs fb c.followup_interval_days 0
          (dueFilter c.total_followups_planned force env.now c.recipients)
          c.recipients).2.2.1, r.email = e) ↔
          e ∈ (dueFilter c.total_followups_planned force env.now
            c.recipients).map Prod.fst := by
        rw [hres, ← mapIdx_followRow_emails env fb _ 0]
        constructor
        · rintro ⟨r, hr, hre⟩
          exact List.mem_map.2 ⟨r, hr, hre⟩
        · intro hm
          obtain ⟨r, hr, hre⟩ := List.mem_map.1 hm
          exact ⟨r, hr, hre⟩
      rw [h1, dueFilter_key_iff c.total_followups_planned force env.now
        c.recipients hnd e d hlk]
      constructor
      · rintro ⟨_, h2⟩
        exact h2
      · intro h2
        exact ⟨hlt, h2⟩

/-- Witness for `send_followup_emails_due` at a concrete one-recipient
campaign in force mode. -/
theorem send_followup_emails_due_witness :
    duePost envF1 "C1" true
      ⟨7, "me@x.com", "Hi {Name}", "Body {Name}", 5, 3,
       [("a@x.com", ⟨"Alice", "m0", "Hi Alice", "T0", 0, 0, 0⟩)]⟩
      (send_followup_emails envF1 "C1" "me@x.com" "FS" "FB {Name}" true dbF) :=
  send_followup_emails_due envF1 "C1" "me@x.com" "FS" "FB {Name}" true dbF
    ⟨7, "me@x.com", "Hi {Name}", "Body {Name}", 5, 3,
     [("a@x.com", ⟨"Alice", "m0", "Hi Alice", "T0", 0, 0, 0⟩)]⟩
    rfl (by decide) rfl

/-- C2 counterexample: on an initial launch the two timestamps are taken
by two separate clock readings (app.py lines 332-333), so with a clock
that advances between them the stored `next_followup_date` differs from
`last_sent_date + interval`, refuting exactness for initial sends.  Here
the readings are 100 and 101: the recipient is stored after a successful
send with `last_sent_date = 100` but `next_followup_date = 101 + 3 days`. -/
theorem launch_dates_counterexample :
    ∃ c rec,
      assocLookup (send_bulk_emails envL1 dfW "C1" "me@x.com" "Hi {Name}"
        "Body {Name}" []).db "C1" = some c ∧
      assocLookup c.recipients "a@x.com" = some rec ∧
      (∃ r ∈ (send_bulk_emails envL1 dfW "C1" "me@x.com" "Hi {Name}"
        "Body {Name}" []).results, r.email = "a@x.com" ∧ r.status = "Sent") ∧
      rec.next_followup_date ≠ rec.last_sent_date + 3 * usPerDay := by
  refine ⟨_, _, rfl, rfl, ⟨⟨"Alice", "a@x.com", "Sent", "Initial email sent.", none⟩,
    by decide, rfl, rfl⟩, by decide⟩

/-- C2 (amended): after a successful follow-up send the recipient's
`followups_sent` grows by exactly one and `next_followup_date` equals
`last_sent_date + interval_days` exactly (one shared clock reading); after
a successful initial send the two stored timestamps come from two
successive clock readings, `last_sent_date = t1` and
`next_followup_date = t2 + 3 days`, which equals `last_sent_date + 3 days`
only when the two readings coincide. -/
theorem scheduling_dates_spec :
    (∀ (env : FollowEnv) (cname sender fs fb : String) (force : Bool) (db : DB)
       (c c2 : Campaign) (e : String) (dOld dNew : Recipient),
      assocLookup db cname = some c →
      (c.recipients.map Prod.fst).Nodup →
      assocLookup c.recipients e = some dOld →
      assocLookup (send_followup_emails env cname sender fs fb force db).db cname = some c2 →
      assocLookup c2.recipients e = some dNew →
      dNew ≠ dOld →
      dNew.followups_sent = dOld.followups_sent + 1 ∧
      dNew.next_followup_date = dNew.last_sent_date + c.followup_interval_days * usPerDay) ∧
    (∀ (env : LaunchEnv) (df : List Ctx) (cname sender st bt : String) (db : DB)
       (c : Campaign) (e : String) (rec : Recipient),
      assocLookup db cname = none →
      assocLookup (send_bulk_emails env df cname sender st bt db).db cname = some c →
      assocLookup c.recipients e = some rec →
      ∃ j, rec.last_sent_date = env.now1 j ∧
        rec.next_followup_date = env.now2 j + 3 * usPerDay) := by
  constructor
  · intro env cname sender fs fb force db c c2 e dOld dNew hname hnd hOld hc2 hnew hne
    obtain ⟨c2x, dNewx, h1, h2, h3⟩ :=
      send_followup_lookup env cname sender fs fb force db c e dOld hname hnd hOld
    rw [hc2] at h1
    injection h1 with h1
    rw [h1] at hnew
    rw [hnew] at h2
    injection h2 with h2
    rcases h3 with h3 | h3
    · exact absurd (h2.trans h3) hne
    · rw [← h2] at h3
      obtain ⟨ha, hb, hc, _, _⟩ := h3
      exact ⟨ha, by rw [hb, hc]⟩
  · intro env df cname sender st bt db c e rec hname hc hrec
    by_cases h0 : df.length = 0
    · have heq : send_bulk_emails env df cname sender st bt db = ⟨none, 0, 0, [], db, []⟩ := by
        unfold send_bulk_emails
        rw [if_pos h0]
      rw [heq] at hc
      rw [show (⟨none, 0, 0, [], db, []⟩ : BatchResult).db = db from rfl, hname] at hc
      cases hc
    · have hsome : ¬ (assocLookup db cname).isSome = true := by simp [hname]
      by_cases ha : env.authOk
      · have heq : send_bulk_emails env df cname sender st bt db =
            ⟨none, (launchLoop env st bt 0 df []).1, (launchLoop env st bt 0 df []).2.1,
             (launchLoop env st bt 0 df []).2.2.1,
             assocSet db cname ⟨env.created_at, sender, st, bt, 5, 3,
               (launchLoop env st bt 0 df []).2.2.2.1⟩,
             (launchLoop env st bt 0 df []).2.2.2.2⟩ := by
          unfold send_bulk_emails
          rw [if_neg h0, if_neg hsome, if_neg (by simp [ha])]
        rw [heq] at hc
        rw [show (⟨none, (launchLoop env st bt 0 df []).1,
              (launchLoop env st bt 0 df []).2.1, (launchLoop env st bt 0 df []).2.2.1,
              assocSet db cname ⟨env.created_at, sender, st, bt, 5, 3,
                (launchLoop env st bt 0 df []).2.2.2.1⟩,
              (launchLoop env st bt 0 df []).2.2.2.2⟩ : BatchResult).db =
            assocSet db cname ⟨env.created_at, sender, st, bt, 5, 3,
              (launchLoop env st bt 0 df []).2.2.2.1⟩ from rfl] at hc
        rw [assocLookup_assocSet, if_pos rfl] at hc
        injection hc with hc
        rw [← hc] at hrec
        rcases launchLoop_recips_values env st bt df 0 [] e rec hrec with hs | hs
        · simp [assocLookup_nil] at hs
        · exact hs.2
      · have heq : send_bulk_emails env df cname sender st bt db =
            ⟨some ("SMTP authentication failed: " ++ env.authErr), 0, 0, [], db, []⟩ := by
          unfold send_bulk_emails
          rw [if_neg h0, if_neg hsome, if_pos (by simp [ha])]
        rw [heq] at hc
        rw [show (⟨some ("SMTP authentication failed: " ++ env.authErr), 0, 0, [], db, []⟩ :
          BatchResult).db = db from rfl, hname] at hc
        cases hc

/-- Witness for `scheduling_dates_spec`: a concrete successful follow-up
whose stored record advances by exactly one with matching dates, and a
concrete launch whose stored dates come from the two clock readings. -/
theorem scheduling_dates_spec_witness :
    ((⟨"Alice", "fm0", "Hi Alice", "fT0", 1, 50, 50 + 3 * usPerDay⟩ :
        Recipient).followups_sent =
      (⟨"Alice", "m0", "Hi Alice", "T0", 0, 0, 0⟩ : Recipient).followups_sent + 1 ∧
     (⟨"Alice", "fm0", "Hi Alice", "fT0", 1, 50, 50 + 3 * usPerDay⟩ :
        Recipient).next_followup_date =
      (⟨"Alice", "fm0", "Hi Alice", "fT0", 1, 50, 50 + 3 * usPerDay⟩ :
        Recipient).last_sent_date +
        (⟨7, "me@x.com", "Hi {Name}", "Body {Name}", 5, 3,
          [("a@x.com", ⟨"Alice", "m0", "Hi Alice", "T0", 0, 0, 0⟩)]⟩ :
          Campaign).followup_interval_days * usPerDay) ∧
    (∃ j, (⟨"Alice", "m0", "Hi Alice", "T0", 0, 100, 101 + 3 * usPerDay⟩ :
        Recipient).last_sent_date = envL1.now1 j ∧
      (⟨"Alice", "m0", "Hi Alice", "T0", 0, 100, 101 + 3 * usPerDay⟩ :
        Recipient).next_followup_date = envL1.now2 j + 3 * usPerDay) := by
  have h := scheduling_dates_spec
  constructor
  · exact h.1 envF1 "C1" "me@x.com" "FS" "FB {Name}" false dbF
      ⟨7, "me@x.com", "Hi {Name}", "Body {Name}", 5, 3,
       [("a@x.com", ⟨"Alice", "m0", "Hi Alice", "T0", 0, 0, 0⟩)]⟩
      ⟨7, "me@x.com", "Hi {Name}", "Body {Name}", 5, 3,
       [("a@x.com", ⟨"Alice", "fm0", "Hi Alice", "fT0", 1, 50, 50 + 3 * usPerDay⟩)]⟩
      "a@x.com"
      ⟨"Alice", "m0", "Hi Alice", "T0", 0, 0, 0⟩
      ⟨"Alice", "fm0", "Hi Alice", "fT0", 1, 50, 50 + 3 * usPerDay⟩
      rfl (by decide) rfl (by decide) rfl (by decide)
  · exact h.2 envL1 dfW "C1" "me@x.com" "Hi {Name}" "Body {Name}" []
      ⟨7, "me@x.com", "Hi {Name}", "Body {Name}", 5, 3,
       [("a@x.com", ⟨"Alice", "m0", "Hi Alice", "T0", 0, 100, 101 + 3 * usPerDay⟩)]⟩
      "a@x.com"
      ⟨"Alice", "m0", "Hi Alice", "T0", 0, 100, 101 + 3 * usPerDay⟩
      rfl (by decide) rfl

/-- C7 counterexample: in a follow-up batch, the subject template
`{Missing}` fails to render for the recipient's context, yet the
recipient is not recorded `Failed`: the send proceeds and is recorded
`Sent`, with zero failures. -/
theorem followup_subject_failure_still_sent :
    (render_email_template "{Missing}"
      (followCtx ("a@x.com", ⟨"Alice", "m0", "Hi Alice", "T0", 0, 0, 0⟩))).2 ≠ "" ∧
    (send_followup_emails envF1 "C1" "me@x.com" "{Missing}" "FB {Name}" false dbF).results =
      [⟨"Alice", "a@x.com", "Sent", "Follow-up #1 sent.", some 1⟩] ∧
    (send_followup_emails envF1 "C1" "me@x.com" "{Missing}" "FB {Name}" false dbF).failed = 0 := by
  refine ⟨by decide, by decide, by decide⟩

/-- C7 (amended): in a launch batch a render failure of either the
subject or the body template records that recipient as `Failed` with the
render error while the batch continues (one result per input row); in a
follow-up batch this holds for the body template (one result per due
recipient), while the follow-up subject template never affects the
batch's outcome at all: a subject render failure neither fails the
recipient nor changes any output. -/
theorem render_failure_per_recipient :
    (∀ (env : LaunchEnv) (df : List Ctx) (cname sender st bt : String) (db : DB)
       (j : Nat) (row : Ctx),
      assocLookup db cname = none → env.authOk = true → df[j]? = some row →
      (send_bulk_emails env df cname sender st bt db).results.length = df.length ∧
      ((render_email_template st (buildContext row)).2 ≠ "" →
        (send_bulk_emails env df cname sender st bt db).results[j]? =
          some ⟨rowName row, rowEmail row, "Failed",
            (render_email_template st (buildContext row)).2, none⟩) ∧
      ((render_email_template st (buildContext row)).2 = "" →
       (render_email_template bt (buildContext row)).2 ≠ "" →
        (send_bulk_emails env df cname sender st bt db).results[j]? =
          some ⟨rowName row, rowEmail row, "Failed",
            (render_email_template bt (buildContext row)).2, none⟩)) ∧
    (∀ (env : FollowEnv) (cname sender fs fb : String) (force : Bool) (db : DB)
       (c : Campaign) (j : Nat) (p : String × Recipient),
      assocLookup db cname = some c → env.authOk = true →
      (dueFilter c.total_followups_planned force env.now c.recipients)[j]? = some p →
      (send_followup_emails env cname sender fs fb force db).results.length =
        (dueFilter c.total_followups_planned force env.now c.recipients).length ∧
      ((render_email_template fb (followCtx p)).2 ≠ "" →
        (send_followup_emails env cname sender fs fb force db).results[j]? =
          some ⟨p.2.name, p.1, "Failed", (render_email_template fb (followCtx p)).2,
            some (p.2.followups_sent + 1)⟩)) ∧
    (∀ (env : FollowEnv) (cname sender fs fs2 fb : String) (force : Bool) (db : DB),
      send_followup_emails env cname sender fs fb force db =
        send_followup_emails env cname sender fs2 fb force db) := by
  refine ⟨?_, ?_, ?_⟩
  · intro env df cname sender st bt db j row hname hauth hj
    have hdf : ¬ df.length = 0 := by
      intro hh
      rw [List.length_eq_zero.1 hh] at hj
      simp at hj
    have hsome : ¬ (assocLookup db cname).isSome = true := by simp [hname]
    have heq : send_bulk_emails env df cname sender st bt db =
        ⟨none, (launchLoop env st bt 0 df []).1, (launchLoop env st bt 0 df []).2.1,
         (launchLoop env st bt 0 df []).2.2.1,
         assocSet db cname ⟨env.created_at, sender, st, bt, 5, 3,
           (launchLoop env st bt 0 df []).2.2.2.1⟩,
         (launchLoop env st bt 0 df []).2.2.2.2⟩ := by
      unfold send_bulk_emails
      rw [if_neg hdf, if_neg hsome, if_neg (by simp [hauth])]
    rw [heq]
    have hget : (launchLoop env st bt 0 df []).2.2.1[j]? =
        some (launchRow env st bt j row) := by
      rw [launchLoop_results, mapIdx_getElem, hj]
      simp
    refine ⟨?_, ?_, ?_⟩
    · show (launchLoop env st bt 0 df []).2.2.1.length = df.length
      rw [launchLoop_results, mapIdx_length]
    · intro hsub
      show (launchLoop env st bt 0 df []).2.2.1[j]? = _
      rw [hget]
      simp [launchRow, hsub]
    · intro hsub hbody
      show (launchLoop env st bt 0 df []).2.2.1[j]? = _
      rw [hget]
      simp [launchRow, hsub, hbody]
  · intro env cname sender fs fb force db c j p hname hauth hj
    have hd : ¬ (dueFilter c.total_followups_planned force env.now
        c.recipients).length = 0 := by
      intro hh
      rw [List.length_eq_zero.1 hh] at hj
      simp at hj
    have heq : send_followup_emails env cname sender fs fb force db =
        ⟨none, (followLoop env fs fb c.followup_interval_days 0
           (dueFilter c.total_followups_planned force env.now c.recipients)
           c.recipients).1,
         (followLoop env fs fb c.followup_interval_days 0
           (dueFilter c.total_followups_planned force env.now c.recipients)
           c.recipients).2.1,
         (followLoop env fs fb c.followup_interval_days 0
           (dueFilter c.total_followups_planned force env.now c.recipients)
           c.recipients).2.2.1,
         assocSet db cname { c with recipients :=
           (followLoop env fs fb c.followup_interval_days 0
             (dueFilter c.total_followups_planned force env.now c.recipients)
             c.recipients).2.2.2.1 },
         (followLoop env fs fb c.followup_interval_days 0
           (dueFilter c.total_followups_planned force env.now c.recipients)
           c.recipients).2.2.2.2⟩ := by
      unfold send_followup_emails
      rw [hname]
      simp only
      rw [if_neg hd, if_neg (by simp [hauth])]
    rw [heq]
    have hget : (followLoop env fs fb c.followup_interval_days 0
        (dueFilter c.total_followups_planned force env.now c.recipients)
        c.recipients).2.2.1[j]? = some (followRow env fb j p) := by
      rw [followLoop_results, mapIdx_getElem, hj]
      simp
    refine ⟨?_, ?_⟩
    · show (followLoop env fs fb c.followup_interval_days 0
        (dueFilter c.total_followups_planned force env.now c.recipients)
        c.recipients).2.2.1.length = _
      rw [followLoop_results, mapIdx_length]
    · intro hb
      show (followLoop env fs fb c.followup_interval_days 0
        (dueFilter c.total_followups_planned force env.now c.recipients)
        c.recipients).2.2.1[j]? = _
      rw [hget]
      simp [followRow, hb]
  · intro env cname sender fs fs2 fb force db
    unfold send_followup_emails
    cases hc : assocLookup db cname with
    | none => rfl
    | some c =>
      simp only
      rw [followLoop_subject_template_irrelevant env fs fs2 fb
        c.followup_interval_days
        (dueFilter c.total_followups_planned force env.now c.recipients) 0
        c.recipients]

/-- Witness for `render_failure_per_recipient`: a concrete launch whose
subject template fails for its only row, and a concrete follow-up whose
body template fails for its only due recipient. -/
theorem render_failure_per_recipient_witness :
    ((send_bulk_emails envL1 dfW "C7" "me@x.com" "{Missing}" "B" []).results.length =
      dfW.length ∧
     ((render_email_template "{Missing}"
        (buildContext [("Name", "Alice"), ("Email", "a@x.com")])).2 ≠ "" →
      (send_bulk_emails envL1 dfW "C7" "me@x.com" "{Missing}" "B" []).results[0]? =
        some ⟨rowName [("Name", "Alice"), ("Email", "a@x.com")],
          rowEmail [("Name", "Alice"), ("Email", "a@x.com")], "Failed",
          (render_email_template "{Missing}"
            (buildContext [("Name", "Alice"), ("Email", "a@x.com")])).2, none⟩) ∧
     ((render_email_template "{Missing}"
        (buildContext [("Name", "Alice"), ("Email", "a@x.com")])).2 = "" →
      (render_email_template "B"
        (buildContext [("Name", "Alice"), ("Email", "a@x.com")])).2 ≠ "" →
      (send_bulk_emails envL1 dfW "C7" "me@x.com" "{Missing}" "B" []).results[0]? =
        some ⟨rowName [("Name", "Alice"), ("Email", "a@x.com")],
          rowEmail [("Name", "Alice"), ("Email", "a@x.com")], "Failed",
          (render_email_template "B"
            (buildContext [("Name", "Alice"), ("Email", "a@x.com")])).2, none⟩)) ∧
    ((send_followup_emails envF1 "C1" "me@x.com" "FS" "{Missing}" false dbF).results.length =
      (dueFilter 5 false envF1.now
        [("a@x.com", ⟨"Alice", "m0", "Hi Alice", "T0", 0, 0, 0⟩)]).length ∧
     ((render_email_template "{Missing}"
        (followCtx ("a@x.com", ⟨"Alice", "m0", "Hi Alice", "T0", 0, 0, 0⟩))).2 ≠ "" →
      (send_followup_emails envF1 "C1" "me@x.com" "FS" "{Missing}" false dbF).results[0]? =
        some ⟨"Alice", "a@x.com", "Failed",
          (render_email_template "{Missing}"
            (followCtx ("a@x.com", ⟨"Alice", "m0", "Hi Alice", "T0", 0, 0, 0⟩))).2,
          some 1⟩)) := by
  have h := render_failure_per_recipient
  constructor
  · exact h.1 envL1 dfW "C7" "me@x.com" "{Missing}" "B" [] 0
      [("Name", "Alice"), ("Email", "a@x.com")] rfl rfl rfl
  · exact h.2.1 envF1 "C1" "me@x.com" "FS" "{Missing}" false dbF
      ⟨7, "me@x.com", "Hi {Name}", "Body {Name}", 5, 3,
       [("a@x.com", ⟨"Alice", "m0", "Hi Alice", "T0", 0, 0, 0⟩)]⟩ 0
      ("a@x.com", ⟨"Alice", "m0", "Hi Alice", "T0", 0, 0, 0⟩) rfl rfl (by decide)

/-- C10: every message transmitted by a follow-up batch carries the
subject `Re: ` followed by the recipient's stored original subject (and
replies to the stored message id); the follow-up subject template has no
effect whatsoever on the batch output, even when it renders successfully;
and the stored subject field is never updated by the batch. -/
theorem followup_transmitted_subject :
    (∀ (env : FollowEnv) (cname sender fs fb : String) (force : Bool) (db : DB)
       (c : Campaign),
      assocLookup db cname = some c →
      ∀ m ∈ (send_followup_emails env cname sender fs fb force db).sends,
        ∃ d, (m.to_addr, d) ∈ c.recipients ∧
          m.subject = "Re: " ++ d.subject ∧ m.in_reply_to = some d.message_id) ∧
    (∀ (env : FollowEnv) (cname sender fs fs2 fb : String) (force : Bool) (db : DB),
      send_followup_emails env cname sender fs fb force db =
        send_followup_emails env cname sender fs2 fb force db) ∧
    (∀ (env : FollowEnv) (cname sender fs fb : String) (force : Bool) (db : DB)
       (c c2 : Campaign) (e : String) (dOld dNew : Recipient),
      assocLookup db cname = some c →
      (c.recipients.map Prod.fst).Nodup →
      assocLookup c.recipients e = some dOld →
      assocLookup (send_followup_emails env cname sender fs fb force db).db cname = some c2 →
      assocLookup c2.recipients e = some dNew →
      dNew.subject = dOld.subject) := by
  refine ⟨?_, ?_, ?_⟩
  · intro env cname sender fs fb force db c hname m hm
    unfold send_followup_emails at hm
    rw [hname] at hm
    simp only at hm
    by_cases hd : (dueFilter c.total_followups_planned force env.now
        c.recipients).length = 0
    · rw [if_pos hd] at hm
      simp at hm
    · rw [if_neg hd] at hm
      by_cases ha : env.authOk
      · rw [if_neg (by simp [ha])] at hm
        replace hm : m ∈ (followLoop env fs fb c.followup_interval_days 0
            (dueFilter c.total_followups_planned force env.now c.recipients)
            c.recipients).2.2.2.2 := hm
        obtain ⟨p, hp, h1, h2, h3⟩ := followLoop_sends env fs fb
          c.followup_interval_days _ 0 c.recipients m hm
        refine ⟨p.2, ?_, h2, h3⟩
        rw [h1, Prod.mk.eta]
        exact List.mem_of_mem_filter hp
      · rw [if_pos (by simp [ha])] at hm
        simp at hm
  · intro env cname sender fs fs2 fb force db
    unfold send_followup_emails
    cases hc : assocLookup db cname with
    | none => rfl
    | some c =>
      simp only
      rw [followLoop_subject_template_irrelevant env fs fs2 fb
        c.followup_interval_days
        (dueFilter c.total_followups_planned force env.now c.recipients) 0
        c.recipients]
  · intro env cname sender fs fb force db c c2 e dOld dNew hname hnd hOld hc2 hnew
    obtain ⟨c2x, dNewx, h1, h2, h3⟩ :=
      send_followup_lookup env cname sender fs fb force db c e dOld hname hnd hOld
    rw [hc2] at h1
    injection h1 with h1
    rw [h1] at hnew
    rw [hnew] at h2
    injection h2 with h2
    rcases h3 with h3 | h3
    · rw [h2, h3]
    · rw [h2]
      exact h3.2.2.2.1

/-- Witness for `followup_transmitted_subject`: the single transmitted
message of a concrete batch (whose subject template renders successfully)
carries `Re: Hi Alice`, and the stored subject is unchanged. -/
theorem followup_transmitted_subject_witness :
    (∃ d, (("a@x.com" : String), d) ∈
        [("a@x.com", (⟨"Alice", "m0", "Hi Alice", "T0", 0, 0, 0⟩ : Recipient))] ∧
      ("Re: Hi Alice" : String) = "Re: " ++ d.subject ∧
      (some "m0" : Option String) = some d.message_id) ∧
    ((⟨"Alice", "fm0", "Hi Alice", "fT0", 1, 50, 50 + 3 * usPerDay⟩ :
        Recipient).subject =
      (⟨"Alice", "m0", "Hi Alice", "T0", 0, 0, 0⟩ : Recipient).subject) := by
  have h := followup_transmitted_subject
  constructor
  · have h1 := h.1 envF1 "C1" "me@x.com" "Hello {Name}" "FB {Name}" false dbF
      ⟨7, "me@x.com", "Hi {Name}", "Body {Name}", 5, 3,
       [("a@x.com", ⟨"Alice", "m0", "Hi Alice", "T0", 0, 0, 0⟩)]⟩ rfl
      ⟨"a@x.com", "Re: Hi Alice", "FB Alice", "fm0", some "m0", "fT0", true⟩
      (by decide)
    exact h1
  · exact h.2.2 envF1 "C1" "me@x.com" "FS" "FB {Name}" false dbF
      ⟨7, "me@x.com", "Hi {Name}", "Body {Name}", 5, 3,
       [("a@x.com", ⟨"Alice", "m0", "Hi Alice", "T0", 0, 0, 0⟩)]⟩
      ⟨7, "me@x.com", "Hi {Name}", "Body {Name}", 5, 3,
       [("a@x.com", ⟨"Alice", "fm0", "Hi Alice", "fT0", 1, 50, 50 + 3 * usPerDay⟩)]⟩
      "a@x.com"
      ⟨"Alice", "m0", "Hi Alice", "T0", 0, 0, 0⟩
      ⟨"Alice", "fm0", "Hi Alice", "fT0", 1, 50, 50 + 3 * usPerDay⟩
      rfl (by decide) rfl (by decide) rfl

/-- Witness for `render_email_template_spec`: the template `Hi {Name}`
succeeds with the context `Name = Bob` and fails naming `Name` with an
empty context. -/
theorem render_email_template_spec_witness :
    renderOk "Hi {Name}" [("Name", "Bob")]
      [Seg.lit 'H', Seg.lit 'i', Seg.lit ' ', Seg.ph "Name"] ∧
    (render_email_template "Hi {Name}" [] =
      ("", "Template error: missing placeholder " ++ lbraceStr ++ "Name" ++ rbraceStr) ∧
     "Name" ∈ segKeys [Seg.lit 'H', Seg.lit 'i', Seg.lit ' ', Seg.ph "Name"] ∧
     lookupCtx [] "Name" = none) := by
  constructor
  · exact (render_email_template_spec "Hi {Name}" [("Name", "Bob")]
      [Seg.lit 'H', Seg.lit 'i', Seg.lit ' ', Seg.ph "Name"] rfl).1 (by decide)
  · exact (render_email_template_spec "Hi {Name}" []
      [Seg.lit 'H', Seg.lit 'i', Seg.lit ' ', Seg.ph "Name"] rfl).2 "Name" (by decide)

end BulkMail
